import Mathlib

/-
Verification of the discovery/tracking core of the adu news aggregator.

The Python sources under `src/` are embedded shallowly: pure helpers become
Lean functions on `String`/`List Char`, datetimes become UTC timestamps in
seconds (`Int`), fallible code returns `Except`/`Option`, and the stateful
scraper runs (`fetch_articles`) become deterministic functions of an explicit
environment record that supplies the outcomes of the external collaborators
(browser, AI model, tracker storage). Definitions come first, followed by the
theorems about them.
-/

namespace Adu

/-! ## Python string primitives used by the embedded code -/

/-- Python `str.strip()` with no argument: remove leading and trailing
whitespace characters. -/
def pyStrip (s : String) : String :=
  String.mk (((s.toList.dropWhile Char.isWhitespace).reverse.dropWhile
    Char.isWhitespace).reverse)

/-- Python `str.upper()` restricted to ASCII, which is all the embedded code
feeds it. -/
def pyUpper (s : String) : String :=
  String.mk (s.toList.map Char.toUpper)

/-- Python `str.lower()` restricted to ASCII. -/
def pyLower (s : String) : String :=
  String.mk (s.toList.map Char.toLower)

/-- Whether `sub` occurs as a contiguous segment of `l`
(Python `sub in s` on strings). -/
def segIn (sub : List Char) : List Char → Bool
  | [] => sub.isEmpty
  | c :: rest => (sub.isPrefixOf (c :: rest)) || segIn sub rest

/-- Python `sub in s` on strings. -/
def pyIn (sub s : String) : Bool := segIn sub.toList s.toList

/-- First maximal run of decimal digits in a character list, scanning left to
right: the semantics of `re.search` with the digit-run pattern used by the
scrapers. -/
def firstDigitRun : List Char → Option (List Char)
  | [] => none
  | c :: rest =>
    if c.isDigit then some ((c :: rest).takeWhile Char.isDigit)
    else firstDigitRun rest

/-- Python `int` applied to a nonempty string of decimal digits. -/
def digitsToNat (l : List Char) : Nat :=
  l.foldl (fun acc c => acc * 10 + (c.toNat - 48)) 0

/-- Python `str.strip("/")`: remove leading and trailing slashes. -/
def pyStripSlash (s : String) : String :=
  String.mk (((s.toList.dropWhile (· = '/')).reverse.dropWhile (· = '/')).reverse)

/-- Python `str.rstrip("/")`: remove trailing slashes. -/
def pyRstripSlash (s : String) : String :=
  String.mk ((s.toList.reverse.dropWhile (· = '/')).reverse)

/-- Where a regex `$` anchor may sit under `re.match`: at the end of the
input, or just before one trailing newline. -/
def reEnd (l : List Char) : Bool := l.isEmpty || l == ['\n']

/-- Helper for `pyTitle`: walks the characters tracking whether the previous
character was alphabetic (ASCII approximation of Python cased). -/
def pyTitleAux (prevAlpha : Bool) : List Char → List Char
  | [] => []
  | c :: rest =>
    let c2 := if c.isAlpha then (if prevAlpha then c.toLower else c.toUpper) else c
    c2 :: pyTitleAux c.isAlpha rest

/-- Python `str.title()` restricted to ASCII: uppercase a letter at a word
start, lowercase the rest. -/
def pyTitle (s : String) : String := String.mk (pyTitleAux false s.toList)

/-- Python `s.startswith(pre)`. -/
def pyStartsWith (s pre : String) : Bool := pre.toList.isPrefixOf s.toList

/-- Python `s.endswith("/")`: the last character is a slash. -/
def pyEndsWithSlash (s : String) : Bool := (s.toList.getLast?.getD ' ') == '/'

/-- Helper for `pyReplace`: replace every non-overlapping occurrence of `pat`
(nonempty) by `rep`, scanning left to right, with fuel bounding the
recursion. -/
def pyReplaceAux (pat rep : List Char) : Nat → List Char → List Char
  | 0, l => l
  | _, [] => []
  | fuel + 1, c :: rest =>
    if pat.isPrefixOf (c :: rest) then
      rep ++ pyReplaceAux pat rep fuel ((c :: rest).drop pat.length)
    else c :: pyReplaceAux pat rep fuel rest

/-- Python `s.replace(pat, rep)` for a nonempty `pat`: every non-overlapping
occurrence, left to right. -/
def pyReplace (s pat rep : String) : String :=
  if pat.toList.isEmpty then s
  else String.mk (pyReplaceAux pat.toList rep.toList s.toList.length s.toList)

/-- Python `s.split("/")[-1]`: the suffix after the last slash (the whole
string when there is none). -/
def lastSlashComponent (s : String) : String :=
  String.mk ((s.toList.reverse.takeWhile (· ≠ '/')).reverse)

/-- Byte-wise comparison of character lists, the tie-breaking total order
used to model hash-set enumeration canonically. -/
def charListLe : List Char → List Char → Bool
  | [], _ => true
  | _ :: _, [] => false
  | a :: as, b :: bs =>
    if a.toNat < b.toNat then true
    else if b.toNat < a.toNat then false
    else charListLe as bs

/-- Ordered insertion for the canonical enumeration order. -/
def insertSorted (x : String) : List String → List String
  | [] => [x]
  | y :: rest =>
    if charListLe x.toList y.toList then x :: y :: rest
    else y :: insertSorted x rest

/-- Insertion sort by the canonical order. -/
def sortStr (l : List String) : List String := l.foldr insertSorted []

/-- Keep the first occurrence of each string, drop later repeats
(accumulator form). -/
def dedupFirstStr (seen : List String) : List String → List String
  | [] => []
  | u :: rest =>
    if seen.contains u then dedupFirstStr seen rest
    else u :: dedupFirstStr (u :: seen) rest

/-- Each string exactly once, in first-occurrence order: the claim-side
reading of "first occurrence wins". -/
def firstOccurrenceList (l : List String) : List String := dedupFirstStr [] l

/-- Keep the first occurrence of each key in a keyed pair list, drop later
repeats (accumulator form). -/
def dedupFirstByKey (seen : List String) :
    List (String × String) → List (String × String)
  | [] => []
  | (k, v) :: rest =>
    if seen.contains k then dedupFirstByKey seen rest
    else (k, v) :: dedupFirstByKey (k :: seen) rest

/-- The claim-side dedup for keyed pairs: each key exactly once, in
first-occurrence order. -/
def firstOccurrenceDedup (l : List (String × String)) :
    List (String × String) :=
  dedupFirstByKey [] l

/-! ## config/sources.py -/

/-- One entry of the `SOURCES` registry in `config/sources.py`. -/
structure SourceConfig where
  id : String
  name : String
  domains : List String
  rssUrl : Option String
  scrapeTimeout : Nat
deriving Repr, DecidableEq

/-- The `SOURCES` dict of `config/sources.py`, in registration order. -/
def SOURCES : List SourceConfig := [
  ⟨"archdaily", "ArchDaily", ["archdaily.com", "www.archdaily.com"],
    some "https://feeds.feedburner.com/Archdaily", 25000⟩,
  ⟨"dezeen", "Dezeen", ["dezeen.com", "www.dezeen.com"],
    some "https://www.dezeen.com/feed/", 25000⟩,
  ⟨"designboom", "Designboom", ["designboom.com", "www.designboom.com"],
    some "https://www.designboom.com/feed/", 20000⟩,
  ⟨"domus", "Domus", ["domusweb.it", "www.domusweb.it"],
    some "https://www.domusweb.it/en.rss.xml", 20000⟩,
  ⟨"architizer", "Architizer", ["architizer.com", "www.architizer.com"],
    none, 20000⟩,
  ⟨"archpaper", "The Architect\x27s Newspaper", ["archpaper.com", "www.archpaper.com"],
    some "https://www.archpaper.com/feed/", 18000⟩,
  ⟨"architectural_digest", "Architectural Digest",
    ["architecturaldigest.com", "www.architecturaldigest.com"],
    some "https://www.architecturaldigest.com/feed/rss", 20000⟩,
  ⟨"architect_magazine", "Architect Magazine",
    ["architectmagazine.com", "www.architectmagazine.com"],
    some "https://www.architectmagazine.com/rss", 20000⟩,
  ⟨"wallpaper", "Wallpaper", ["wallpaper.com", "www.wallpaper.com"],
    some "https://www.wallpaper.com/rss", 20000⟩,
  ⟨"afasia", "Afasia", ["afasiaarchzine.com", "www.afasiaarchzine.com"],
    some "https://afasiaarchzine.com/feed/", 15000⟩,
  ⟨"divisare", "Divisare", ["divisare.com", "www.divisare.com"],
    some "https://divisare.com/feed", 20000⟩,
  ⟨"curbed", "Curbed", ["curbed.com", "www.curbed.com"],
    some "https://www.curbed.com/rss/index.xml", 20000⟩,
  ⟨"dwell", "Dwell", ["dwell.com", "www.dwell.com"],
    some "https://www.dwell.com/rss", 20000⟩]

/-- Lookup in an association list built like a Python dict comprehension:
later insertions overwrite earlier ones, so the last matching binding wins. -/
def lookupLast (l : List (String × String)) (k : String) : Option String :=
  match l with
  | [] => none
  | (k0, v) :: rest =>
    match lookupLast rest k with
    | some v2 => some v2
    | none => if k0 = k then some v else none

/-- The derived `_DOMAIN_TO_SOURCE` index of `config/sources.py`: for every
source and every domain, bind `domain.lower()` to the source id (dict insert,
so the last registered source wins on collision, which `lookupLast` mirrors). -/
def domainToSource : List (String × String) :=
  SOURCES.flatMap (fun s => s.domains.map (fun d => (pyLower d, s.id)))

/-- Characters allowed after the first character of a URL scheme
(CPython `urllib.parse.scheme_chars`). -/
def schemeChar (c : Char) : Bool :=
  c.isAlphanum || c == '+' || c == '-' || c == '.'

/-- CPython `urlsplit` scheme splitting: when the text before the first `:`
is a nonempty valid scheme (leading letter, then scheme characters), the
remainder after the `:` is returned; otherwise the input is unchanged. -/
def dropScheme (l : List Char) : List Char :=
  let pre := l.takeWhile (fun c => c ≠ ':')
  if pre.length < l.length ∧ pre ≠ [] ∧
      (pre.headD ' ').isAlpha ∧ pre.all schemeChar then
    l.drop (pre.length + 1)
  else l

/-- CPython `urlsplit` netloc extraction: after the scheme, a netloc is
present only behind `//` and runs to the next `/`, `?` or `#`; a netloc with
an unmatched square bracket raises `ValueError` (Invalid IPv6 URL), modelled
as `Except.error`. -/
def pyNetloc (l : List Char) : Except Unit (List Char) :=
  match dropScheme l with
  | '/' :: '/' :: r =>
    let netloc := r.takeWhile (fun c => !(c == '/' || c == '?' || c == '#'))
    if (netloc.contains '[' && !netloc.contains ']') ||
        (netloc.contains ']' && !netloc.contains '[') then .error ()
    else .ok netloc
  | _ => .ok []

/-- CPython `urlparse` parameter splitting: `;params` is split off the last
path segment (after the last `/`, or anywhere when there is no `/`). -/
def cutParams (p : List Char) : List Char :=
  let suffix := (p.reverse.takeWhile (· ≠ '/')).reverse
  p.take (p.length - suffix.length) ++ suffix.takeWhile (fun c => c ≠ ';')

/-- CPython `urlparse(...).path`: drop the scheme and the `//`-introduced
netloc, keep up to the first `?` or `#`, and split trailing parameters off
the last segment. Only meaningful after `pyNetloc` succeeded. -/
def pyPathOf (l : List Char) : List Char :=
  let rest := dropScheme l
  let afterNet :=
    match rest with
    | '/' :: '/' :: r => r.dropWhile (fun c => !(c == '/' || c == '?' || c == '#'))
    | _ => rest
  cutParams (afterNet.takeWhile (fun c => !(c == '?' || c == '#')))

/-- Embeds `config/sources.py::get_source_id`: empty URL gives `None`; the
URL's netloc is parsed and lowercased and looked up in the domain index; a
parse failure is absorbed by the bare `except` and gives `None`. -/
def get_source_id (url : String) : Option String :=
  if url = "" then none
  else
    match pyNetloc url.toList with
    | .error _ => none
    | .ok h => lookupLast domainToSource (String.mk (h.map Char.toLower))

deriving instance DecidableEq for Except

/-! ## storage/article_tracker.py (spec-modelled) -/

/-- Modelled from the spec: `storage/article_tracker.py` (class
`ArticleTracker`) is not under `src/`; only its callers are. Per spec section
4.2 the tracker keeps, per source, a durable seen-set of identifiers plus an
optional resolved link per identifier. All claims here concern a single
source, so the state is one seen-set (set semantics via membership in a
`List String`) and one association list of resolved links. -/
structure TrackerState where
  seen : List String
  resolved : List (String × String)
deriving Repr, DecidableEq

/-- Modelled from the spec: `ArticleTracker.find_new_headlines` is not under
`src/`. Per spec section 4.2, `filterNew` returns the subsequence of the
input not present in the seen set, preserving input order. -/
def find_new_headlines (seen current : List String) : List String :=
  current.filter (fun h => !(seen.contains h))

/-- Modelled from the spec: `ArticleTracker.store_headlines` is not under
`src/`. Per spec section 4.2, `markSeen` inserts each identifier if absent
and is a no-op for already-present ones; with membership as the set
semantics, appending realises the idempotent insert. -/
def store_headlines (st : TrackerState) (hs : List String) : TrackerState :=
  { st with seen := st.seen ++ hs }

/-- Modelled from the spec: `ArticleTracker.update_headline_url` is not under
`src/`. Per spec section 4.2, `updateResolvedLink` attaches a resolved URL to
an identifier with overwrite semantics and upserts the identifier when it is
not yet present. -/
def update_headline_url (st : TrackerState) (h url : String) : TrackerState :=
  { seen := st.seen ++ [h], resolved := st.resolved ++ [(h, url)] }

/-! ## The vision strategies' headline-to-container matcher

`IdentityScraper._find_headline_in_html_with_ai` (identity.py lines 242-269),
`DomusScraper._find_headline_in_html_with_ai` (domus.py lines 160-179) and
`MetalocusScraper._find_headline_in_html_with_ai` (metalocus.py lines
100-111) share one response-handling tail, embedded once below. -/

/-- One enumerated article container as collected by the page-side JS of the
vision scrapers: the DOM enumeration index, dominant link text, href,
trimmed excerpt and optional image URL. -/
structure Container where
  index : Nat
  link_text : String
  href : String
  description : String
  image_url : Option String
deriving Repr, DecidableEq

/-- The dict the matcher returns on success. -/
structure MatchResult where
  title : String
  link : String
  description : String
  image_url : Option String
deriving Repr, DecidableEq

/-- Embeds the response handling of `_find_headline_in_html_with_ai`
(identity.py lines 202-269 after the AI call; same logic in domus.py and
metalocus.py): with no containers return `None`; strip and uppercase the
response; `"NONE"` means no match; otherwise `re.search` for the first digit
run (no digits means no match), convert it with `int`, and return the fields
of the first container whose `index` equals it, or `None` when none does. -/
def matchHeadlineResponse (ctx : List Container) (response : String) :
    Option MatchResult :=
  if ctx.isEmpty then none
  else
    let clean := pyUpper (pyStrip response)
    if clean = "NONE" then none
    else
      match firstDigitRun clean.toList with
      | none => none
      | some ds =>
        let idx := digitsToNat ds
        match ctx.find? (fun c => c.index == idx) with
        | some c => some ⟨c.link_text, c.href, c.description, c.image_url⟩
        | none => none

/-- A response that is, after trimming, a bare decimal integer: the only
numeric form the spec's parse contract admits. -/
def isBareInteger (s : String) : Bool :=
  let t := (pyStrip s).toList
  !t.isEmpty && t.all Char.isDigit

/-! ## Shared run-model pieces -/

/-- The minimal article record a custom scraper hands to the pipeline
(title, link, optional publication instant). Publication instants are
modelled as UTC timestamps in seconds. -/
structure Article where
  title : String
  link : String
  published : Option Int
deriving Repr, DecidableEq

/-- Modelled from the spec: `operators/custom_scraper_base.py`
(`BaseCustomScraper._create_minimal_article_dict` / `_validate_article`) is
not under `src/`. Per spec section 7, `ValidationFailure` is a candidate
missing required fields, dropped silently; per section 6 the minimal record
is source, identifier/link, title and optional date, so validation requires
the title and link to be present (nonempty). -/
def validate_article (a : Article) : Bool :=
  !(a.title == "") && !(a.link == "")

/-- Python `(current_date - article_date).days` for timestamps in seconds:
`timedelta` normalises with floor division by 86400. -/
def pyDaysBetween (now pub : Int) : Int := Int.fdiv (now - pub) 86400

/-- Applies a batch of `update_headline_url` calls in order. -/
def applyUpdates (st : TrackerState) (l : List (String × String)) :
    TrackerState :=
  l.foldl (fun s p => update_headline_url s p.1 p.2) st

/-- Everything observable about one `fetch_articles` run: the returned list,
the tracker state after the run, the successful `store_headlines` payloads,
and whether the run's catch-all `except` swallowed an error (in the real code
that branch logs and falls through to `return []`). -/
structure RunResult where
  articles : List Article
  tracker : TrackerState
  storeCalls : List (List String)
  caughtError : Bool
deriving Repr, DecidableEq

/-! ## operators/custom_scrapers/identity.py -/

namespace IdentityScraper

/-- identity.py line 46. -/
def MAX_ARTICLE_AGE_DAYS : Int := 2

/-- identity.py line 299 (`max_new`). -/
def max_new : Nat := 10

/-- The outcome of the per-headline AI link resolution
(`_find_headline_in_html_with_ai`) for one headline: the call may raise (any
exception inside the per-headline `try`, caught by `except: continue` at
identity.py line 463), or return `None`, or return a match dict. -/
inductive ItemOutcome where
  | raise
  | result (r : Option MatchResult)
deriving Repr, DecidableEq

/-- The environment of one `IdentityScraper.fetch_articles` run: the outcomes
of the external collaborators. `connectFails` is a storage failure in
`_ensure_tracker` (identity.py line 302, before the `try`); `findNewFails`
one in `tracker.find_new_headlines` (line 343, inside the `try`);
`storeFails` one in `tracker.store_headlines` (line 474). `currentHeadlines`
is the screenshot analysis result, `seen` the tracker's seen-set for this
source, `resolve` the per-headline AI matching outcome, `pubDate` the
AI-extracted publication timestamp of a visited article URL
(`_parse_date_with_ai`, modelled from the spec as an already-parsed optional
timestamp since `custom_scraper_base.py` is not under `src/`), and `now` the
run's `datetime.now(timezone.utc)`. -/
structure Env where
  connectFails : Bool
  currentHeadlines : List String
  seen : List String
  findNewFails : Bool
  resolve : String → ItemOutcome
  pubDate : String → Option Int
  now : Int
  storeFails : Bool

/-- One iteration of the headline loop (identity.py lines 373-465): resolve
the headline; skip when resolution raised, returned `None`, or returned a
falsy link; visit the link and extract a date; skip when the date is present
and strictly older than `MAX_ARTICLE_AGE_DAYS`; otherwise build the minimal
article and keep it when it validates. Returns the appended article, if
any. -/
def processHeadline (env : Env) (h : String) : Option Article :=
  match env.resolve h with
  | .raise => none
  | .result none => none
  | .result (some m) =>
    if m.link = "" then none
    else
      match env.pubDate m.link with
      | some d =>
        if pyDaysBetween env.now d > MAX_ARTICLE_AGE_DAYS then none
        else
          let a : Article := ⟨m.title, m.link, some d⟩
          if validate_article a then some a else none
      | none =>
        let a : Article := ⟨m.title, m.link, none⟩
        if validate_article a then some a else none

/-- The `update_headline_url` calls the loop issues: one per validated
appended article, keyed by the headline with the resolved URL
(identity.py lines 450-454). -/
def itemUpdates (env : Env) (hs : List String) : List (String × String) :=
  hs.filterMap (fun h => (processHeadline env h).map (fun a => (h, a.link)))

/-- Embeds `IdentityScraper.fetch_articles` (identity.py lines 271-503).
Control flow: `_ensure_tracker` runs before the `try`, so a connect failure
propagates (`Except.error`); inside the `try`, empty extraction returns `[]`;
a `find_new_headlines` failure is caught by the outer `except` which returns
`[]`; zero new headlines returns `[]` with no store call; otherwise the new
list is capped at `max_new`, each capped headline is processed (per-item
failures skip that item), all current headlines are stored (a store failure
again reaches the outer `except` and yields `[]`), and the appended articles
are returned. -/
def fetch_articles (env : Env) : Except Unit RunResult :=
  if env.connectFails then .error ()
  else
    let st0 : TrackerState := ⟨env.seen, []⟩
    if env.currentHeadlines.isEmpty then .ok ⟨[], st0, [], false⟩
    else if env.findNewFails then .ok ⟨[], st0, [], true⟩
    else
      let newHeadlines := find_new_headlines env.seen env.currentHeadlines
      if newHeadlines.isEmpty then .ok ⟨[], st0, [], false⟩
      else
        let attempted := newHeadlines.take max_new
        let articles := attempted.filterMap (processHeadline env)
        let st1 := applyUpdates st0 (itemUpdates env attempted)
        if env.storeFails then .ok ⟨[], st1, [], true⟩
        else .ok ⟨articles, store_headlines st1 env.currentHeadlines,
          [env.currentHeadlines], false⟩

end IdentityScraper

/-! ## operators/custom_scrapers/bauwelt.py -/

namespace BauweltScraper

/-- bauwelt.py line 53. -/
def MAX_ARTICLE_AGE_DAYS : Int := 14

/-- bauwelt.py line 54. -/
def MAX_NEW_ARTICLES : Nat := 10

/-- The characters the regex class of `ARTICLE_PATTERN`
(bauwelt.py line 57, `[^"\'>\s]`) admits. -/
def patternAllowed (c : Char) : Bool :=
  !(c == '"' || c == '\'' || c == '>' || c.isWhitespace)

/-- The literal prefix of `ARTICLE_PATTERN` (17 characters). -/
def patternLit : List Char := "/rubriken/bauten/".toList

/-- Greedy length of the regex tail `[^"\'>\s]+\.html` within the allowed-run
`run`: the largest `L` so that the first `L` characters end in `.html` with
at least one class character before it (`L ≥ 6`). `none` when the tail cannot
match. -/
def bestMatchLen (run : List Char) : Option Nat :=
  ((List.range (run.length + 1)).filter
    (fun L => 6 ≤ L && (".html".toList.isSuffixOf (run.take L)))).max?

/-- One attempted regex match at the head of `l`: the literal prefix, then
the greedy class-plus-`.html` tail. Returns the matched characters and the
remaining input after the match. -/
def tryPatternMatch (l : List Char) : Option (List Char × List Char) :=
  if patternLit.isPrefixOf l then
    let run := (l.drop 17).takeWhile patternAllowed
    match bestMatchLen run with
    | some L => some (patternLit ++ run.take L, l.drop (17 + L))
    | none => none
  else none

/-- `re.findall` scanning for `ARTICLE_PATTERN`: try a match at each position
left to right; a successful match is recorded and scanning resumes after it
(non-overlapping); otherwise advance one character. Fuel is the input length,
which bounds the recursion because every step consumes at least one
character. -/
def findallAux : Nat → List Char → List (List Char)
  | 0, _ => []
  | _, [] => []
  | fuel + 1, c :: rest =>
    match tryPatternMatch (c :: rest) with
    | some (m, after) => m :: findallAux fuel after
    | none => findallAux fuel rest

/-- `self.ARTICLE_PATTERN.findall(html)` (bauwelt.py line 98). -/
def ARTICLE_PATTERN_findall (html : String) : List String :=
  (findallAux html.toList.length html.toList).map String.mk

/-- `urljoin("https://www.bauwelt.de", path)` for the root-relative paths the
pattern produces: the base has no path of its own, so the result is the base
authority followed by the path. -/
def bauweltUrljoin (path : String) : String := "https://www.bauwelt.de" ++ path

/-- Models CPython `list(set(...))` over strings (bauwelt.py lines 101-106):
a `set` is an unordered hash table, and iterating it yields the distinct
elements in an order determined by the (per-process randomised) string
hashes — not by insertion or first-occurrence order. The enumeration is
modelled canonically as the distinct elements sorted byte-wise: like the real
enumeration it is determined by the set's contents and carries no information
about where each element first occurred. -/
def pySetList (l : List String) : List String := sortStr (firstOccurrenceList l)

/-- Embeds `BauweltScraper._extract_article_links` (bauwelt.py lines 85-106):
find all pattern matches, convert each to an absolute URL, and return the
deduplicated URLs as `list(set(...))`. -/
def extract_article_links (html : String) : List String :=
  pySetList ((ARTICLE_PATTERN_findall html).map bauweltUrljoin)

/-- All maximal digit runs of a character list, left to right: the semantics
of `re.findall` with the digit-run pattern (bauwelt.py line 152). -/
def allDigitRunsAux : Nat → List Char → List (List Char)
  | 0, _ => []
  | _, [] => []
  | fuel + 1, c :: rest =>
    if c.isDigit then
      ((c :: rest).takeWhile Char.isDigit) ::
        allDigitRunsAux fuel ((c :: rest).dropWhile Char.isDigit)
    else allDigitRunsAux fuel rest

/-- All maximal digit runs of a string. -/
def allDigitRuns (l : List Char) : List (List Char) :=
  allDigitRunsAux l.length l

/-- Embeds `BauweltScraper._filter_article_urls_with_ai` (bauwelt.py lines
108-165). `aiOutcome` is the model response text, or `none` when the AI call
raised (the method's own `except` then returns `[]`). Empty input returns
`[]`; the response `NONE` (after strip and upper) returns `[]`; otherwise
every digit run in the response is read as a 1-based index into the input
list and the in-range ones select the surviving URLs in response order. -/
def filter_article_urls_with_ai (urls : List String) (aiOutcome : Option String) :
    List String :=
  if urls.isEmpty then []
  else
    match aiOutcome with
    | none => []
    | some resp =>
      let respText := pyStrip resp
      if pyUpper respText = "NONE" then []
      else
        (allDigitRuns respText.toList).filterMap (fun numStr =>
          let n := digitsToNat numStr
          if n = 0 then none else urls.get? (n - 1))

/-- `url.split("/")[-1].replace("-", " ").replace(".html", "")`
(bauwelt.py line 313). -/
def url_title (url : String) : String :=
  pyReplace (pyReplace (lastSlashComponent url) "-" " ") ".html" ""

/-- The environment of one `BauweltScraper.fetch_articles` run.
`connectFails` is a storage failure in `_ensure_tracker` (bauwelt.py line
223, before the `try`); `getStoredFails` one in
`tracker.get_stored_headlines` (line 279); `storeFails` one in
`tracker.store_headlines` (lines 294 and 379). `html` is the loaded page
content, `aiOutcome` the URL-filter model response, `itemDate` the extracted
publication timestamp per visited URL (`_get_article_date` catches its own
errors and yields `None`; timestamps are already parsed, since the date
parsing helper lives in `custom_scraper_base.py`, which is not under `src/`
and is modelled from the spec as ISO-or-absent), `itemRaises` any other
exception inside the per-article `try` (caught at bauwelt.py line 369), and
`now` the run's current instant. -/
structure BEnv where
  connectFails : Bool
  html : String
  aiOutcome : Option String
  getStoredFails : Bool
  seen : List String
  itemDate : String → Option Int
  itemRaises : String → Bool
  now : Int
  storeFails : Bool

/-- One iteration of the URL loop (bauwelt.py lines 311-373): extract the
date; keep the article when the date is absent (or unparseable, per the inner
`except` of lines 339-340, vacuous here since dates arrive parsed) or at most
`MAX_ARTICLE_AGE_DAYS` old; validate and append. -/
def processUrl (env : BEnv) (url : String) : Option Article :=
  if env.itemRaises url then none
  else
    let published := env.itemDate url
    let keep : Bool :=
      match published with
      | some d => !(pyDaysBetween env.now d > MAX_ARTICLE_AGE_DAYS)
      | none => true
    if keep then
      let a : Article := ⟨url_title url, url, published⟩
      if validate_article a then some a else none
    else none

/-- Embeds `BauweltScraper.fetch_articles` (bauwelt.py lines 200-408).
`_ensure_tracker` runs before the `try`, so a connect failure propagates;
inside the `try`: no extracted links, or no AI-approved URLs, return `[]`; a
`get_stored_headlines` failure is caught by the outer `except` and yields
`[]`; with zero new URLs the full AI-approved set is stored and `[]`
returned; otherwise the new URLs are capped at `MAX_NEW_ARTICLES`, each is
processed (per-item failures skip the item; each validated article also
issues `update_headline_url` keyed by the URL-derived title, line 360), the
full AI-approved set is stored, and the appended articles are returned. A
store failure reaches the outer `except` and yields `[]`. -/
def fetch_articles (env : BEnv) : Except Unit RunResult :=
  if env.connectFails then .error ()
  else
    let st0 : TrackerState := ⟨env.seen, []⟩
    let all_links := extract_article_links env.html
    if all_links.isEmpty then .ok ⟨[], st0, [], false⟩
    else
      let article_urls := filter_article_urls_with_ai all_links env.aiOutcome
      if article_urls.isEmpty then .ok ⟨[], st0, [], false⟩
      else if env.getStoredFails then .ok ⟨[], st0, [], true⟩
      else
        let new_urls := article_urls.filter (fun u => !(env.seen.contains u))
        if new_urls.isEmpty then
          if env.storeFails then .ok ⟨[], st0, [], true⟩
          else .ok ⟨[], store_headlines st0 article_urls, [article_urls], false⟩
        else
          let urls_to_process := new_urls.take MAX_NEW_ARTICLES
          let articles := urls_to_process.filterMap (processUrl env)
          let st1 := applyUpdates st0 (urls_to_process.filterMap
            (fun u => (processUrl env u).map (fun _a => (url_title u, u))))
          if env.storeFails then .ok ⟨[], st1, [], true⟩
          else .ok ⟨articles, store_headlines st1 article_urls,
            [article_urls], false⟩

end BauweltScraper

/-- Abbreviation for the AI-filtered URL list of a bauwelt run. -/
def bauweltArticleUrls (env : BauweltScraper.BEnv) : List String :=
  BauweltScraper.filter_article_urls_with_ai
    (BauweltScraper.extract_article_links env.html) env.aiOutcome

/-- Abbreviation for the not-yet-seen URL list of a bauwelt run. -/
def bauweltNewUrls (env : BauweltScraper.BEnv) : List String :=
  (bauweltArticleUrls env).filter (fun u => !(env.seen.contains u))

/-! ## Anchors and the two pattern extractors -/

/-- One `<a href>` tag as the pattern scrapers read it from BeautifulSoup
(an external collaborator): the `href` attribute, the stripped link text,
and, when the parent-element lookup finds a heading, that heading text. -/
structure Anchor where
  href : String
  text : String
  parentHeading : Option String
deriving Repr, DecidableEq

/-- The shared title fallback chain of the two pattern scrapers
(landscape_architecture_magazine.py lines 158-172 and
world_landscape_architect.py lines 207-220, textually identical logic): link
text; when empty or shorter than 10 characters, the parent heading when one
exists; when still empty or short, the title-cased last path segment with
hyphens as spaces. -/
def titleFromAnchor (a : Anchor) (path : String) : String :=
  let t0 := a.text
  let t1 :=
    if t0 == "" || t0.length < 10 then
      match a.parentHeading with
      | some h => h
      | none => t0
    else t0
  if t1 == "" || t1.length < 10 then
    pyTitle (pyReplace (lastSlashComponent (pyStripSlash path)) "-" " ")
  else t1

/-- The shared anchor loop of the two pattern scrapers: process each anchor
in page order, let a `urlparse` failure propagate, and append each produced
`(url, title)` pair whose URL was not seen earlier in this page
(`seen_urls`-set dedup, first occurrence wins). -/
def extractLoopAux (process : Anchor → Except Unit (Option (String × String)))
    (seen : List String) : List Anchor → Except Unit (List (String × String))
  | [] => .ok []
  | a :: rest =>
    match process a with
    | .error e => .error e
    | .ok none => extractLoopAux process seen rest
    | .ok (some (url, title)) =>
      if seen.contains url then extractLoopAux process seen rest
      else
        match extractLoopAux process (url :: seen) rest with
        | .error e => .error e
        | .ok l => .ok ((url, title) :: l)

/-! ## operators/custom_scrapers/landscape_architecture_magazine.py -/

namespace LamScraper

/-- The `EXCLUDED_PATTERNS` of landscape_architecture_magazine.py lines
65-75: each is a case-insensitive literal prefix (`re.match` anchors at the
start). -/
def EXCLUDED_PATTERNS : List String :=
  ["/about", "/all-articles", "/project-", "/search", "/contact",
   "/cdn-cgi/", "/getcontentasset", "?", "#"]

/-- Embeds `_is_excluded_path` (lines 88-93): any excluded pattern matching
at the start of the path, case-insensitively. -/
def is_excluded_path (path : String) : Bool :=
  EXCLUDED_PATTERNS.any (fun pre => pyStartsWith (pyLower path) pre)

/-- The character class `[a-z0-9-]` under `re.IGNORECASE`. -/
def slugChar (c : Char) : Bool := c.isAlpha || c.isDigit || c == '-'

/-- The regex tail `[a-z0-9-]+/?$`: a nonempty run of slug characters, an
optional slash, then the end anchor. -/
def slugTail (l : List Char) : Bool :=
  let core := l.takeWhile slugChar
  let rest := l.drop core.length
  !core.isEmpty &&
    (reEnd rest || ((rest.headD ' ' == '/') && reEnd (rest.drop 1)))

/-- The first article pattern `^/20\d{2}/\d{2}/[a-z0-9-]+/?$` (line 60). -/
def articlePattern1 (p : List Char) : Bool :=
  match p with
  | '/' :: '2' :: '0' :: d1 :: d2 :: '/' :: m1 :: m2 :: '/' :: rest =>
    d1.isDigit && d2.isDigit && m1.isDigit && m2.isDigit && slugTail rest
  | _ => false

/-- The second article pattern `^/20\d{2}/[a-z0-9-]+/?$` (line 61). -/
def articlePattern2 (p : List Char) : Bool :=
  match p with
  | '/' :: '2' :: '0' :: d1 :: d2 :: '/' :: rest =>
    d1.isDigit && d2.isDigit && slugTail rest
  | _ => false

/-- Embeds `_is_valid_article_url` (lines 95-113): must start with `/`, not
be excluded, and match one of the two article patterns. -/
def is_valid_article_url (path : String) : Bool :=
  pyStartsWith path "/" && !(is_excluded_path path) &&
    (articlePattern1 path.toList || articlePattern2 path.toList)

/-- Embeds the per-anchor body of `_extract_article_links` (lines 125-174):
skip empty/fragment/javascript/mailto hrefs; parse the URL (a parse failure
propagates out of the extractor); skip external netlocs; skip empty paths;
lead the path with `/`; when the path is a valid article URL, build the
absolute URL, strip trailing slashes, and derive the title. -/
def processAnchor (a : Anchor) : Except Unit (Option (String × String)) :=
  if a.href == "" || pyStartsWith a.href "#" || pyStartsWith a.href "javascript:" ||
      pyStartsWith a.href "mailto:" then .ok none
  else
    match pyNetloc a.href.toList with
    | .error e => .error e
    | .ok netloc =>
      if !netloc.isEmpty &&
          !(pyIn "landscapearchitecturemagazine.org" (String.mk netloc)) then
        .ok none
      else
        let path0 := String.mk (pyPathOf a.href.toList)
        if path0 == "" then .ok none
        else
          let path := if pyStartsWith path0 "/" then path0 else "/" ++ path0
          if is_valid_article_url path then
            .ok (some
              (pyRstripSlash ("https://landscapearchitecturemagazine.org" ++ path),
               titleFromAnchor a path))
          else .ok none

/-- Embeds `_extract_article_links` (lines 115-176): the anchor loop with
the `seen_urls` set. -/
def extract_article_links (anchors : List Anchor) :
    Except Unit (List (String × String)) :=
  extractLoopAux processAnchor [] anchors

end LamScraper

/-! ## operators/custom_scrapers/world_landscape_architect.py -/

namespace WlaScraper

/-- The literal members of `EXCLUDED_PATH_PATTERNS`
(world_landscape_architect.py lines 59-84), each a case-insensitive prefix. -/
def EXCLUDED_PATH_LITERALS : List String :=
  ["/landscape-architect/", "/job/", "/job-listing/", "/category/", "/shop/",
   "/cart/", "/checkout/", "/about/", "/contact-us/", "/advertise/",
   "/submissions/", "/support-wla/", "/supporters/", "/product/",
   "/design-discipline/", "/editor-posts/", "/review/", "/student/",
   "/general/", "/privacy-policy", "/disclaimer/", "/refunds-policy/",
   "/individual-membership/", "/design-firm-membership/",
   "/product-service-membership/"]

/-- `COMPANY_PROFILE_SLUGS` (lines 90-94). -/
def COMPANY_PROFILE_SLUGS : List String :=
  ["urbastyle", "mmcite", "streetlife", "cracknell", "vestre",
   "landscape-forms", "maglin", "scenic", "benoy", "felixx",
   "hassell", "sasaki", "stoss", "arcadia", "arup", "rios"]

/-- The date-archive pattern `^/\d{4}/\d{2}/$` (line 85). -/
def dateArchivePattern (p : List Char) : Bool :=
  match p with
  | '/' :: a :: b :: c :: d :: '/' :: e :: f :: '/' :: rest =>
    a.isDigit && b.isDigit && c.isDigit && d.isDigit && e.isDigit &&
      f.isDigit && reEnd rest
  | _ => false

/-- The single-segment pattern `^/[^/]+/$` (line 86). -/
def singleSegmentPattern (p : List Char) : Bool :=
  match p with
  | '/' :: rest =>
    let core := rest.takeWhile (fun c => c ≠ '/')
    !core.isEmpty &&
      ((rest.drop core.length).headD ' ' == '/') &&
      reEnd (rest.drop (core.length + 1))
  | _ => false

/-- Embeds `_is_excluded_path` (lines 107-112). -/
def is_excluded_path (path : String) : Bool :=
  let lp := pyLower path
  EXCLUDED_PATH_LITERALS.any (fun pre => pyStartsWith lp pre) ||
    dateArchivePattern lp.toList || singleSegmentPattern lp.toList

/-- Embeds `_is_company_profile` (lines 114-118). -/
def is_company_profile (slug : String) : Bool :=
  COMPANY_PROFILE_SLUGS.contains (pyLower (pyStripSlash slug))

/-- Embeds `_looks_like_article_title` (lines 120-133): at least four
hyphens in the cleaned slug. -/
def looks_like_article_title (slug : String) : Bool :=
  4 ≤ ((pyStripSlash slug).toList.filter (fun c => c == '-')).length

/-- Embeds `_is_valid_article_url` (lines 135-163). -/
def is_valid_article_url (path : String) : Bool :=
  pyStartsWith path "/" && !(is_excluded_path path) &&
    (let slug := pyStripSlash path
     !(slug == "" || pyIn "?" slug || pyIn "#" slug) &&
     !(is_company_profile slug) && !(pyIn "/" slug) &&
     looks_like_article_title slug)

/-- Embeds the per-anchor body of `_extract_article_links` (lines 175-222):
like the LAM one, but the path is normalised to end with `/` before the
leading-`/` normalisation, the netloc filter uses
`worldlandscapearchitect.com`, and the absolute URL is not stripped of
trailing slashes. -/
def processAnchor (a : Anchor) : Except Unit (Option (String × String)) :=
  if a.href == "" || pyStartsWith a.href "#" || pyStartsWith a.href "javascript:" ||
      pyStartsWith a.href "mailto:" then .ok none
  else
    match pyNetloc a.href.toList with
    | .error e => .error e
    | .ok netloc =>
      if !netloc.isEmpty &&
          !(pyIn "worldlandscapearchitect.com" (String.mk netloc)) then
        .ok none
      else
        let path0 := String.mk (pyPathOf a.href.toList)
        if path0 == "" then .ok none
        else
          let path1 := if pyEndsWithSlash path0 then path0 else path0 ++ "/"
          let path := if pyStartsWith path1 "/" then path1 else "/" ++ path1
          if is_valid_article_url path then
            .ok (some
              ("https://worldlandscapearchitect.com" ++ path,
               titleFromAnchor a path))
          else .ok none

/-- Embeds `_extract_article_links` (lines 165-224). -/
def extract_article_links (anchors : List Anchor) :
    Except Unit (List (String × String)) :=
  extractLoopAux processAnchor [] anchors

end WlaScraper

/-- The per-page candidate stream of a pattern extractor: the `(url, title)`
pairs its per-anchor body produces, in page order, duplicates included. The
claim about extractor output compares against the first-occurrence dedup of
this stream. -/
def producedPairs (process : Anchor → Except Unit (Option (String × String)))
    (anchors : List Anchor) : List (String × String) :=
  anchors.filterMap (fun a =>
    match process a with
    | .ok (some p) => some p
    | _ => none)

/-! ## Concrete witness environments -/

/-- Concrete environment for the C1 witness: tracker connect failure. -/
def c1ConnectEnv : IdentityScraper.Env :=
  ⟨true, ["h1"], [], false, fun _ => .raise, fun _ => none, 0, false⟩

/-- Concrete environment for the C1 witness: bauwelt run whose
`get_stored_headlines` fails after a nonempty extraction and AI filter. -/
def c1BauweltEnv : BauweltScraper.BEnv :=
  ⟨false, "/rubriken/bauten/a.html", some "1", true, [],
   fun _ => none, fun _ => false, 0, false⟩

/-- Concrete environment for the C5 counterexample: both candidates already
seen. -/
def c5Env : IdentityScraper.Env :=
  ⟨false, ["seen-a", "seen-b"], ["seen-a", "seen-b"], false,
   fun _ => .raise, fun _ => none, 0, false⟩

/-- Concrete environment for the C5 witness: bauwelt run where the one
extracted-and-filtered URL is already seen. -/
def c5BauweltEnv : BauweltScraper.BEnv :=
  ⟨false, "/rubriken/bauten/a.html", some "1", false,
   ["https://www.bauwelt.de/rubriken/bauten/a.html"],
   fun _ => none, fun _ => false, 0, false⟩

/-- Concrete environment for the C2/C3 witnesses: fifteen new headlines on a
fresh tracker. -/
def c15IdentityEnv : IdentityScraper.Env :=
  ⟨false,
   ["n01", "n02", "n03", "n04", "n05", "n06", "n07", "n08", "n09", "n10",
    "n11", "n12", "n13", "n14", "n15"],
   [], false, fun _ => .raise, fun _ => none, 0, false⟩

/-- Concrete environment for the C2/C3 witnesses: a bauwelt page carrying
fifteen article links, all AI-approved, none seen. -/
def c15BauweltEnv : BauweltScraper.BEnv :=
  ⟨false,
   String.intercalate " "
     ["/rubriken/bauten/a01.html", "/rubriken/bauten/a02.html",
      "/rubriken/bauten/a03.html", "/rubriken/bauten/a04.html",
      "/rubriken/bauten/a05.html", "/rubriken/bauten/a06.html",
      "/rubriken/bauten/a07.html", "/rubriken/bauten/a08.html",
      "/rubriken/bauten/a09.html", "/rubriken/bauten/a10.html",
      "/rubriken/bauten/a11.html", "/rubriken/bauten/a12.html",
      "/rubriken/bauten/a13.html", "/rubriken/bauten/a14.html",
      "/rubriken/bauten/a15.html"],
   some "1, 2, 3, 4, 5, 6, 7, 8, 9, 10, 11, 12, 13, 14, 15",
   false, [], fun _ => none, fun _ => false, 0, false⟩

/-- Concrete environment for the C6 witness: headline `hb` resolves to an
article exactly `MAX_ARTICLE_AGE_DAYS` old at run time, headline `ho` to one
a day older. -/
def c6IdentityEnv : IdentityScraper.Env :=
  ⟨false, ["hb", "ho"], [], false,
   fun h =>
     if h == "hb" then
       .result (some ⟨"Boundary fresh title", "https://identity.ae/b", "", none⟩)
     else
       .result (some ⟨"Old article title", "https://identity.ae/o", "", none⟩),
   fun l => if l == "https://identity.ae/b" then some 86400 else some 0,
   259200, false⟩

/-- Concrete environment for the C6 witness: bauwelt run with one URL
exactly `MAX_ARTICLE_AGE_DAYS` old and one a day older. -/
def c6BauweltEnv : BauweltScraper.BEnv :=
  ⟨false, "/rubriken/bauten/b-haus.html /rubriken/bauten/o-haus.html",
   some "1, 2", false, [],
   fun u => if u == "https://www.bauwelt.de/rubriken/bauten/b-haus.html" then
     some 86400 else some 0,
   fun _ => false, 1296000, false⟩

/-- Concrete environment for the C7 witness: the single new headline has a
resolved link but no resolvable date. -/
def c7IdentityEnv : IdentityScraper.Env :=
  ⟨false, ["hn"], [], false,
   fun _ => .result (some ⟨"No date article title", "https://identity.ae/n", "", none⟩),
   fun _ => none, 0, false⟩

/-- Concrete environment for the C7 witness: bauwelt run whose single new URL
yields no date. -/
def c7BauweltEnv : BauweltScraper.BEnv :=
  ⟨false, "/rubriken/bauten/n-article.html", some "1", false, [],
   fun _ => none, fun _ => false, 0, false⟩

/-- Concrete page for the C4 counterexample: URL `b.html` occurs before
`a.html`. -/
def c4Html : String := "/rubriken/bauten/b.html /rubriken/bauten/a.html"

/-- Concrete anchors for the C4 witness: a valid article link, a non-article
link, and a repeat of the first link. -/
def c4LamAnchors : List Anchor :=
  [⟨"/2025/a-park-mostly-for-people", "A park mostly for people", none⟩,
   ⟨"/about-lam", "About", none⟩,
   ⟨"/2025/a-park-mostly-for-people", "A park mostly for people", none⟩]

/-- Concrete anchors for the C4 witness on the WLA extractor. -/
def c4WlaAnchors : List Anchor :=
  [⟨"/a-new-park-for-the-eastern-riverside-district/",
    "A new park for the eastern riverside district", none⟩,
   ⟨"/category/featured/", "Featured", none⟩]

/-! ## Theorems -/

/-- Boolean emptiness from propositional nonemptiness. -/
theorem isEmpty_false_of_ne {α : Type} {l : List α} (h : l ≠ []) :
    l.isEmpty = false := by
  cases hb : l.isEmpty
  · rfl
  · exact absurd (List.isEmpty_iff.mp hb) h

/-- The identity run on a fully available tracker with a nonempty extraction
and at least one new headline: the capped new headlines are processed, the
per-article updates applied, and all current headlines stored. -/
theorem identity_run_ok (env : IdentityScraper.Env)
    (hc : env.connectFails = false) (hf : env.findNewFails = false)
    (hs : env.storeFails = false) (hcur : env.currentHeadlines ≠ [])
    (hnew : find_new_headlines env.seen env.currentHeadlines ≠ []) :
    IdentityScraper.fetch_articles env = .ok
      { articles := ((find_new_headlines env.seen env.currentHeadlines).take
          IdentityScraper.max_new).filterMap (IdentityScraper.processHeadline env),
        tracker := store_headlines
          (applyUpdates ⟨env.seen, []⟩ (IdentityScraper.itemUpdates env
            ((find_new_headlines env.seen env.currentHeadlines).take
              IdentityScraper.max_new)))
          env.currentHeadlines,
        storeCalls := [env.currentHeadlines],
        caughtError := false } := by
  have h1 : env.currentHeadlines.isEmpty = false := isEmpty_false_of_ne hcur
  have h2 : (find_new_headlines env.seen env.currentHeadlines).isEmpty = false :=
    isEmpty_false_of_ne hnew
  unfold IdentityScraper.fetch_articles
  simp [hc, hf, hs, h1, h2]

/-- The identity run when the tracker reports zero new headlines: empty
result, no store call, no error. -/
theorem identity_run_zero_new (env : IdentityScraper.Env)
    (hc : env.connectFails = false) (hf : env.findNewFails = false)
    (hcur : env.currentHeadlines ≠ [])
    (hnew : find_new_headlines env.seen env.currentHeadlines = []) :
    IdentityScraper.fetch_articles env = .ok ⟨[], ⟨env.seen, []⟩, [], false⟩ := by
  have h1 : env.currentHeadlines.isEmpty = false := isEmpty_false_of_ne hcur
  have h2 : (find_new_headlines env.seen env.currentHeadlines).isEmpty = true := by
    simp [hnew]
  unfold IdentityScraper.fetch_articles
  simp [hc, hf, h1, h2]

/-- A nonempty AI-filter output forces a nonempty link extraction. -/
theorem bauwelt_links_ne_of_urls_ne (env : BauweltScraper.BEnv)
    (h : bauweltArticleUrls env ≠ []) :
    (BauweltScraper.extract_article_links env.html).isEmpty = false := by
  by_contra hx
  apply h
  unfold bauweltArticleUrls BauweltScraper.filter_article_urls_with_ai
  simp at hx
  simp [hx]

/-- The bauwelt run on a fully available tracker with a nonempty AI-filtered
URL list and at least one new URL. -/
theorem bauwelt_run_ok (env : BauweltScraper.BEnv)
    (hc : env.connectFails = false) (hg : env.getStoredFails = false)
    (hs : env.storeFails = false) (hurls : bauweltArticleUrls env ≠ [])
    (hnew : bauweltNewUrls env ≠ []) :
    BauweltScraper.fetch_articles env = .ok
      { articles := ((bauweltNewUrls env).take BauweltScraper.MAX_NEW_ARTICLES).filterMap
          (BauweltScraper.processUrl env),
        tracker := store_headlines
          (applyUpdates ⟨env.seen, []⟩
            (((bauweltNewUrls env).take BauweltScraper.MAX_NEW_ARTICLES).filterMap
              (fun u => (BauweltScraper.processUrl env u).map
                (fun _a => (BauweltScraper.url_title u, u)))))
          (bauweltArticleUrls env),
        storeCalls := [bauweltArticleUrls env],
        caughtError := false } := by
  have h0 := bauwelt_links_ne_of_urls_ne env hurls
  have h1 : (BauweltScraper.filter_article_urls_with_ai
      (BauweltScraper.extract_article_links env.html) env.aiOutcome).isEmpty =
      false := isEmpty_false_of_ne hurls
  have h2 : (List.filter (fun u => !env.seen.contains u)
      (BauweltScraper.filter_article_urls_with_ai
        (BauweltScraper.extract_article_links env.html) env.aiOutcome)).isEmpty =
      false := isEmpty_false_of_ne hnew
  unfold BauweltScraper.fetch_articles
  simp only [hc, Bool.false_eq_true, if_false, h0, h1, h2, hg, hs]
  rfl

/-- The bauwelt run when every AI-filtered URL is already seen: empty result,
but the full AI-filtered list is stored. -/
theorem bauwelt_run_zero_new (env : BauweltScraper.BEnv)
    (hc : env.connectFails = false) (hg : env.getStoredFails = false)
    (hs : env.storeFails = false) (hurls : bauweltArticleUrls env ≠ [])
    (hnew : bauweltNewUrls env = []) :
    BauweltScraper.fetch_articles env = .ok
      ⟨[], store_headlines ⟨env.seen, []⟩ (bauweltArticleUrls env),
        [bauweltArticleUrls env], false⟩ := by
  have h0 := bauwelt_links_ne_of_urls_ne env hurls
  have h1 : (BauweltScraper.filter_article_urls_with_ai
      (BauweltScraper.extract_article_links env.html) env.aiOutcome).isEmpty =
      false := isEmpty_false_of_ne hurls
  have h2 : (List.filter (fun u => !env.seen.contains u)
      (BauweltScraper.filter_article_urls_with_ai
        (BauweltScraper.extract_article_links env.html) env.aiOutcome)).isEmpty =
      true := by
    have h3 : (List.filter (fun u => !env.seen.contains u)
        (BauweltScraper.filter_article_urls_with_ai
          (BauweltScraper.extract_article_links env.html) env.aiOutcome)) = [] :=
      hnew
    rw [h3]
    rfl
  unfold BauweltScraper.fetch_articles
  simp only [hc, Bool.false_eq_true, if_false, h0, h1, h2, hg, hs, if_true]
  rfl

/-! ## Claim C9 -/

/-- Claim C9: `get_source_id` returns `archdaily` for
`https://www.archdaily.com/123/x`; returns `none` for the empty string, for
every URL whose lowercased parsed host is outside the domain index, and for a
malformed URL (unmatched bracket host, where the underlying parse raises)
without raising. -/
theorem C9_get_source_id :
    get_source_id "https://www.archdaily.com/123/x" = some "archdaily" ∧
    get_source_id "https://unknown.example/x" = none ∧
    get_source_id "" = none ∧
    (pyNetloc ("http://[::1/x".toList) = .error () ∧
      get_source_id "http://[::1/x" = none) ∧
    ∀ url h, pyNetloc url.toList = .ok h →
      lookupLast domainToSource (String.mk (h.map Char.toLower)) = none →
      get_source_id url = none := by
  refine ⟨by decide, by decide, by decide, ⟨by decide, by decide⟩, ?_⟩
  intro url h hp hl
  unfold get_source_id
  by_cases hu : url = ""
  · simp [hu]
  · have hp2 : pyNetloc url.data = Except.ok h := hp
    simp [hu, hp2, hl]

/-- Witness for C9: the general unknown-host conjunct applied at a concrete
URL. -/
theorem C9_get_source_id_witness :
    get_source_id "https://nosuch.example/a" = none :=
  C9_get_source_id.2.2.2.2 "https://nosuch.example/a" ("nosuch.example".toList)
    (by decide) (by decide)

/-! ## Claims C8 and C10: the AI-match parse contract -/

/-- Helper: `find?` on a container list whose indices are distinct returns
exactly the member carrying the sought index. -/
theorem find_container_eq (ctx : List Container) (c : Container)
    (hmem : c ∈ ctx) (hnd : (ctx.map Container.index).Nodup) :
    ctx.find? (fun x => x.index == c.index) = some c := by
  induction ctx with
  | nil => cases hmem
  | cons a rest ih =>
    rcases List.mem_cons.mp hmem with rfl | hrest
    · simp [List.find?]
    · have hnd2 : (∀ x ∈ rest, ¬x.index = a.index) ∧
          (List.map Container.index rest).Nodup := by simpa using hnd
      have hb : (a.index == c.index) = false := by
        simpa using fun he : a.index = c.index => hnd2.1 c hrest he.symm
      simp only [List.find?]
      rw [hb]
      exact ih hrest hnd2.2

/-- Helper: a response whose cleaned form contains a digit run is not the
cleaned literal `NONE`. -/
theorem clean_ne_NONE_of_digits {r : String} {ds : List Char}
    (hds : firstDigitRun (pyUpper (pyStrip r)).toList = some ds) :
    pyUpper (pyStrip r) ≠ "NONE" := by
  intro he
  rw [he] at hds
  exact Option.noConfusion ((by decide : firstDigitRun "NONE".toList = none) ▸ hds)

/-- Claim C8, counterexample: the response `"I pick container 2"` is neither a
bare integer nor the literal `NONE`, yet the matcher does not treat it as
unmatched — it extracts the digit `2` and returns that container. -/
theorem C8_matcher_counterexample :
    isBareInteger "I pick container 2" = false ∧
    pyUpper (pyStrip "I pick container 2") ≠ "NONE" ∧
    matchHeadlineResponse
      [⟨2, "Dubai pavilion revealed", "https://identity.ae/a2", "d2", none⟩]
      "I pick container 2" =
      some ⟨"Dubai pavilion revealed", "https://identity.ae/a2", "d2", none⟩ := by
  refine ⟨by decide, by decide, by decide⟩

/-- Claim C8 as amended: the matcher treats the trimmed, uppercased literal
`NONE` as unmatched, treats any response whose cleaned form contains no digit
as unmatched, and otherwise uses the first digit run found anywhere in the
response as the container index: any returned match is the container of the
enumeration carrying exactly that index. It is a total function (never a
crash). -/
theorem C8_matcher_amended (ctx : List Container) (r : String) :
    (pyUpper (pyStrip r) = "NONE" → matchHeadlineResponse ctx r = none) ∧
    (firstDigitRun (pyUpper (pyStrip r)).toList = none →
      matchHeadlineResponse ctx r = none) ∧
    (∀ m, matchHeadlineResponse ctx r = some m →
      ∃ c ∈ ctx,
        (firstDigitRun (pyUpper (pyStrip r)).toList).map digitsToNat =
          some c.index ∧
        m = ⟨c.link_text, c.href, c.description, c.image_url⟩) := by
  refine ⟨?_, ?_, ?_⟩
  · intro hnone
    unfold matchHeadlineResponse
    simp [hnone]
  · intro hrun
    unfold matchHeadlineResponse
    by_cases he : ctx.isEmpty
    · simp [he]
    · simp only [he, if_false, Bool.false_eq_true]
      split
      · rfl
      · rw [hrun]
  · intro m hm
    unfold matchHeadlineResponse at hm
    by_cases he : ctx.isEmpty
    · simp [he] at hm
    · simp only [he, if_false, Bool.false_eq_true] at hm
      split at hm
      · exact absurd hm (by simp)
      · revert hm
        split
        · intro hm; exact absurd hm (by simp)
        · rename_i ds hds
          split
          · rename_i c hc
            intro hm
            refine ⟨c, List.mem_of_find?_eq_some hc, ?_, ?_⟩
            · have hcidx : c.index = digitsToNat ds := by
                simpa using List.find?_some hc
              rw [hds]
              simp [hcidx]
            · simpa using hm.symm
          · intro hm; exact absurd hm (by simp)

/-- Witness for C8: the amended theorem applied at a concrete digit-free
response. -/
theorem C8_matcher_amended_witness :
    matchHeadlineResponse
      [⟨0, "t0", "https://identity.ae/a0", "d0", none⟩] "maybe the top one" =
      none :=
  (C8_matcher_amended [⟨0, "t0", "https://identity.ae/a0", "d0", none⟩]
    "maybe the top one").2.1 (by decide)

/-- Claim C10: when the parsed integer is not the index of any enumerated
container the matcher returns no match (and, being a total function, cannot
raise); when a container with that index exists among distinctly indexed
containers, the returned title, link, description and image are exactly that
container's fields. -/
theorem C10_matcher_lookup (ctx : List Container) (r : String) (ds : List Char)
    (hds : firstDigitRun (pyUpper (pyStrip r)).toList = some ds) :
    ((∀ c ∈ ctx, c.index ≠ digitsToNat ds) →
      matchHeadlineResponse ctx r = none) ∧
    (∀ c ∈ ctx, c.index = digitsToNat ds →
      (ctx.map Container.index).Nodup →
      matchHeadlineResponse ctx r =
        some ⟨c.link_text, c.href, c.description, c.image_url⟩) := by
  constructor
  · intro hno
    unfold matchHeadlineResponse
    by_cases he : ctx.isEmpty
    · simp [he]
    · simp only [he, if_false, Bool.false_eq_true]
      rw [if_neg (clean_ne_NONE_of_digits hds), hds]
      have : ctx.find? (fun c => c.index == digitsToNat ds) = none := by
        rw [List.find?_eq_none]
        intro c hc
        simpa using hno c hc
      simp [this]
  · intro c hmem hidx hnd
    unfold matchHeadlineResponse
    have he : ctx.isEmpty = false := by
      cases ctx with
      | nil => cases hmem
      | cons a l => rfl
    simp only [he, if_false, Bool.false_eq_true]
    rw [if_neg (clean_ne_NONE_of_digits hds), hds]
    have hfind : ctx.find? (fun x => x.index == digitsToNat ds) = some c := by
      have := find_container_eq ctx c hmem hnd
      rwa [hidx] at this
    simp [hfind]

/-- Witness for C10: both directions applied at concrete containers and the
response `" 1 "`. -/
theorem C10_matcher_lookup_witness :
    matchHeadlineResponse
      [⟨0, "t0", "https://identity.ae/a0", "d0", none⟩,
       ⟨1, "t1", "https://identity.ae/a1", "d1", some "https://identity.ae/i1"⟩]
      " 1 " =
      some ⟨"t1", "https://identity.ae/a1", "d1", some "https://identity.ae/i1"⟩ ∧
    matchHeadlineResponse
      [⟨0, "t0", "https://identity.ae/a0", "d0", none⟩] " 7 " = none := by
  constructor
  · exact (C10_matcher_lookup
      [⟨0, "t0", "https://identity.ae/a0", "d0", none⟩,
       ⟨1, "t1", "https://identity.ae/a1", "d1", some "https://identity.ae/i1"⟩]
      " 1 " ['1'] (by decide)).2
      ⟨1, "t1", "https://identity.ae/a1", "d1", some "https://identity.ae/i1"⟩
      (by decide) (by decide) (by decide)
  · exact (C10_matcher_lookup
      [⟨0, "t0", "https://identity.ae/a0", "d0", none⟩] " 7 " ['7']
      (by decide)).1 (by decide)

/-! ## Claim C1: storage failures and the catch-all handler -/

/-- Claim C1, counterexample: a run in which the tracker's `find_new_headlines`
query signals a storage failure (`findNewFails = true`) does not abort as a
visible failure — `fetch_articles` catches it (identity.py lines 498-503) and
returns `Except.ok` with an empty article list, exactly the fabricated
"no new articles" result the claim forbids; only the model's `caughtError`
flag records that an error was swallowed. -/
theorem C1_swallowed_storage_failure_counterexample :
    IdentityScraper.fetch_articles
      ⟨false, ["h1", "h2"], [], true, fun _ => .raise, fun _ => none, 0, false⟩ =
      .ok ⟨[], ⟨[], []⟩, [], true⟩ := by
  rfl

/-- Claim C1 as amended: a storage failure in `_ensure_tracker` (which runs
before the `try` in both scrapers) does propagate to the caller as a visible
failure, but a storage failure inside the run — `find_new_headlines` in
identity.py, `get_stored_headlines` in bauwelt.py — is caught by the
source-level catch-all, which logs it and returns an empty list
indistinguishable from a successful "no new articles" run. -/
theorem C1_storage_failure_amended (env : IdentityScraper.Env)
    (benv : BauweltScraper.BEnv) :
    (env.connectFails = true → IdentityScraper.fetch_articles env = .error ()) ∧
    (env.connectFails = false → env.currentHeadlines ≠ [] →
      env.findNewFails = true →
      IdentityScraper.fetch_articles env = .ok ⟨[], ⟨env.seen, []⟩, [], true⟩) ∧
    (benv.connectFails = true → BauweltScraper.fetch_articles benv = .error ()) ∧
    (benv.connectFails = false → benv.getStoredFails = true →
      bauweltArticleUrls benv ≠ [] →
      BauweltScraper.fetch_articles benv = .ok ⟨[], ⟨benv.seen, []⟩, [], true⟩) := by
  refine ⟨?_, ?_, ?_, ?_⟩
  · intro hc
    unfold IdentityScraper.fetch_articles
    simp [hc]
  · intro hc hcur hf
    have h1 : env.currentHeadlines.isEmpty = false := isEmpty_false_of_ne hcur
    unfold IdentityScraper.fetch_articles
    simp [hc, h1, hf]
  · intro hc
    unfold BauweltScraper.fetch_articles
    simp [hc]
  · intro hc hg hurls
    have h0 := bauwelt_links_ne_of_urls_ne benv hurls
    have h1 : (BauweltScraper.filter_article_urls_with_ai
        (BauweltScraper.extract_article_links benv.html) benv.aiOutcome).isEmpty =
        false := isEmpty_false_of_ne hurls
    unfold BauweltScraper.fetch_articles
    simp [hc, h0, h1, hg]

/-- Witness for C1: the amended theorem applied at concrete runs, covering
both the visible connect failure and the swallowed bauwelt query failure. -/
theorem C1_storage_failure_amended_witness :
    IdentityScraper.fetch_articles c1ConnectEnv = .error () ∧
    BauweltScraper.fetch_articles c1BauweltEnv = .ok ⟨[], ⟨[], []⟩, [], true⟩ :=
  ⟨(C1_storage_failure_amended c1ConnectEnv c1BauweltEnv).1 rfl,
   (C1_storage_failure_amended c1ConnectEnv c1BauweltEnv).2.2.2 rfl rfl
     (by decide)⟩

/-! ## Claim C2: store-all marks the over-cap remainder seen -/

/-- Claim C2: at the end of every identity or bauwelt run that had at least
one new candidate, the full current candidate-identifier set (not only the
processed subset) is stored as seen; consequently, for distinct candidates,
every new identifier beyond the per-run cap ends the run marked seen without
having been in the processed prefix. -/
theorem C2_store_all_discovered (env : IdentityScraper.Env)
    (benv : BauweltScraper.BEnv) :
    (env.connectFails = false → env.findNewFails = false →
      env.storeFails = false →
      find_new_headlines env.seen env.currentHeadlines ≠ [] →
      ∃ r, IdentityScraper.fetch_articles env = .ok r ∧
        r.storeCalls = [env.currentHeadlines] ∧
        (∀ h ∈ env.currentHeadlines, h ∈ r.tracker.seen) ∧
        (env.currentHeadlines.Nodup →
          ∀ h ∈ (find_new_headlines env.seen env.currentHeadlines).drop
              IdentityScraper.max_new,
            h ∈ r.tracker.seen ∧
            h ∉ (find_new_headlines env.seen env.currentHeadlines).take
              IdentityScraper.max_new)) ∧
    (benv.connectFails = false → benv.getStoredFails = false →
      benv.storeFails = false → bauweltNewUrls benv ≠ [] →
      ∃ r, BauweltScraper.fetch_articles benv = .ok r ∧
        r.storeCalls = [bauweltArticleUrls benv] ∧
        (∀ u ∈ bauweltArticleUrls benv, u ∈ r.tracker.seen) ∧
        ((bauweltArticleUrls benv).Nodup →
          ∀ u ∈ (bauweltNewUrls benv).drop BauweltScraper.MAX_NEW_ARTICLES,
            u ∈ r.tracker.seen ∧
            u ∉ (bauweltNewUrls benv).take BauweltScraper.MAX_NEW_ARTICLES)) := by
  constructor
  · intro hc hf hs hnew
    have hcur : env.currentHeadlines ≠ [] := by
      intro h0
      apply hnew
      simp [find_new_headlines, h0]
    refine ⟨_, identity_run_ok env hc hf hs hcur hnew, rfl, ?_, ?_⟩
    · intro h hmem
      simp only [store_headlines, List.mem_append]
      exact Or.inr hmem
    · intro hnd h hmem
      have hmem2 : h ∈ env.currentHeadlines :=
        List.mem_of_mem_filter (List.mem_of_mem_drop hmem)
      refine ⟨by simp only [store_headlines, List.mem_append]; exact Or.inr hmem2, ?_⟩
      have hndnew : (find_new_headlines env.seen env.currentHeadlines).Nodup :=
        List.Nodup.filter _ hnd
      exact fun ht => (List.disjoint_take_drop hndnew le_rfl) ht hmem
  · intro hc hg hs hnew
    have hurls : bauweltArticleUrls benv ≠ [] := by
      intro h0
      apply hnew
      unfold bauweltNewUrls
      rw [h0]
      rfl
    refine ⟨_, bauwelt_run_ok benv hc hg hs hurls hnew, rfl, ?_, ?_⟩
    · intro u hmem
      simp only [store_headlines, List.mem_append]
      exact Or.inr hmem
    · intro hnd u hmem
      have hmem2 : u ∈ bauweltArticleUrls benv :=
        List.mem_of_mem_filter (List.mem_of_mem_drop hmem)
      refine ⟨by simp only [store_headlines, List.mem_append]; exact Or.inr hmem2, ?_⟩
      have hndnew : (bauweltNewUrls benv).Nodup := List.Nodup.filter _ hnd
      exact fun ht => (List.disjoint_take_drop hndnew le_rfl) ht hmem

set_option maxRecDepth 10000 in
/-- Witness for C2: the theorem applied at the fifteen-new runs of both
scrapers. -/
theorem C2_store_all_discovered_witness :
    (∃ r, IdentityScraper.fetch_articles c15IdentityEnv = .ok r ∧
      r.storeCalls = [c15IdentityEnv.currentHeadlines] ∧
      (∀ h ∈ c15IdentityEnv.currentHeadlines, h ∈ r.tracker.seen) ∧
      (c15IdentityEnv.currentHeadlines.Nodup →
        ∀ h ∈ (find_new_headlines c15IdentityEnv.seen
            c15IdentityEnv.currentHeadlines).drop IdentityScraper.max_new,
          h ∈ r.tracker.seen ∧
          h ∉ (find_new_headlines c15IdentityEnv.seen
            c15IdentityEnv.currentHeadlines).take IdentityScraper.max_new)) ∧
    (∃ r, BauweltScraper.fetch_articles c15BauweltEnv = .ok r ∧
      r.storeCalls = [bauweltArticleUrls c15BauweltEnv] ∧
      (∀ u ∈ bauweltArticleUrls c15BauweltEnv, u ∈ r.tracker.seen) ∧
      ((bauweltArticleUrls c15BauweltEnv).Nodup →
        ∀ u ∈ (bauweltNewUrls c15BauweltEnv).drop BauweltScraper.MAX_NEW_ARTICLES,
          u ∈ r.tracker.seen ∧
          u ∉ (bauweltNewUrls c15BauweltEnv).take
            BauweltScraper.MAX_NEW_ARTICLES)) :=
  ⟨(C2_store_all_discovered c15IdentityEnv c15BauweltEnv).1 rfl rfl rfl
      (by decide),
   (C2_store_all_discovered c15IdentityEnv c15BauweltEnv).2 rfl rfl rfl
      (by decide)⟩

/-! ## Claim C3: cap enforcement -/

/-- Claim C3: whenever a run has more than ten new identifiers, exactly the
first ten in discovery order form the processed set — the returned articles
all arise from those first ten, and (for distinct candidates) no identifier
beyond the tenth is among them. -/
theorem C3_cap_enforcement (env : IdentityScraper.Env)
    (benv : BauweltScraper.BEnv) :
    (env.connectFails = false → env.findNewFails = false →
      env.storeFails = false →
      IdentityScraper.max_new <
        (find_new_headlines env.seen env.currentHeadlines).length →
      ∃ r, IdentityScraper.fetch_articles env = .ok r ∧
        r.articles = ((find_new_headlines env.seen env.currentHeadlines).take
          IdentityScraper.max_new).filterMap (IdentityScraper.processHeadline env) ∧
        ((find_new_headlines env.seen env.currentHeadlines).take
          IdentityScraper.max_new).length = IdentityScraper.max_new ∧
        (∀ a ∈ r.articles,
          ∃ h ∈ (find_new_headlines env.seen env.currentHeadlines).take
            IdentityScraper.max_new,
            IdentityScraper.processHeadline env h = some a) ∧
        (env.currentHeadlines.Nodup →
          ∀ h ∈ (find_new_headlines env.seen env.currentHeadlines).drop
            IdentityScraper.max_new,
            h ∉ (find_new_headlines env.seen env.currentHeadlines).take
              IdentityScraper.max_new)) ∧
    (benv.connectFails = false → benv.getStoredFails = false →
      benv.storeFails = false →
      BauweltScraper.MAX_NEW_ARTICLES < (bauweltNewUrls benv).length →
      ∃ r, BauweltScraper.fetch_articles benv = .ok r ∧
        r.articles = ((bauweltNewUrls benv).take
          BauweltScraper.MAX_NEW_ARTICLES).filterMap
          (BauweltScraper.processUrl benv) ∧
        ((bauweltNewUrls benv).take BauweltScraper.MAX_NEW_ARTICLES).length =
          BauweltScraper.MAX_NEW_ARTICLES ∧
        (∀ a ∈ r.articles,
          ∃ u ∈ (bauweltNewUrls benv).take BauweltScraper.MAX_NEW_ARTICLES,
            BauweltScraper.processUrl benv u = some a) ∧
        ((bauweltArticleUrls benv).Nodup →
          ∀ u ∈ (bauweltNewUrls benv).drop BauweltScraper.MAX_NEW_ARTICLES,
            u ∉ (bauweltNewUrls benv).take BauweltScraper.MAX_NEW_ARTICLES)) := by
  constructor
  · intro hc hf hs hlen
    have hnew : find_new_headlines env.seen env.currentHeadlines ≠ [] := by
      intro h0
      rw [h0] at hlen
      simp [IdentityScraper.max_new] at hlen
    have hcur : env.currentHeadlines ≠ [] := by
      intro h0
      apply hnew
      simp [find_new_headlines, h0]
    refine ⟨_, identity_run_ok env hc hf hs hcur hnew, rfl, ?_, ?_, ?_⟩
    · rw [List.length_take]
      omega
    · intro a hmem
      exact List.mem_filterMap.mp hmem
    · intro hnd h hmem
      have hndnew : (find_new_headlines env.seen env.currentHeadlines).Nodup :=
        List.Nodup.filter _ hnd
      exact fun ht => (List.disjoint_take_drop hndnew le_rfl) ht hmem
  · intro hc hg hs hlen
    have hnew : bauweltNewUrls benv ≠ [] := by
      intro h0
      rw [h0] at hlen
      simp [BauweltScraper.MAX_NEW_ARTICLES] at hlen
    have hurls : bauweltArticleUrls benv ≠ [] := by
      intro h0
      apply hnew
      unfold bauweltNewUrls
      rw [h0]
      rfl
    refine ⟨_, bauwelt_run_ok benv hc hg hs hurls hnew, rfl, ?_, ?_, ?_⟩
    · rw [List.length_take]
      omega
    · intro a hmem
      exact List.mem_filterMap.mp hmem
    · intro hnd u hmem
      have hndnew : (bauweltNewUrls benv).Nodup := List.Nodup.filter _ hnd
      exact fun ht => (List.disjoint_take_drop hndnew le_rfl) ht hmem

set_option maxRecDepth 10000 in
/-- Witness for C3: the theorem applied at the fifteen-new identity run. -/
theorem C3_cap_enforcement_witness :
    ∃ r, IdentityScraper.fetch_articles c15IdentityEnv = .ok r ∧
      r.articles = ((find_new_headlines c15IdentityEnv.seen
        c15IdentityEnv.currentHeadlines).take
        IdentityScraper.max_new).filterMap
        (IdentityScraper.processHeadline c15IdentityEnv) ∧
      ((find_new_headlines c15IdentityEnv.seen
        c15IdentityEnv.currentHeadlines).take IdentityScraper.max_new).length =
        IdentityScraper.max_new ∧
      (∀ a ∈ r.articles,
        ∃ h ∈ (find_new_headlines c15IdentityEnv.seen
          c15IdentityEnv.currentHeadlines).take IdentityScraper.max_new,
          IdentityScraper.processHeadline c15IdentityEnv h = some a) ∧
      (c15IdentityEnv.currentHeadlines.Nodup →
        ∀ h ∈ (find_new_headlines c15IdentityEnv.seen
          c15IdentityEnv.currentHeadlines).drop IdentityScraper.max_new,
          h ∉ (find_new_headlines c15IdentityEnv.seen
            c15IdentityEnv.currentHeadlines).take IdentityScraper.max_new) :=
  (C3_cap_enforcement c15IdentityEnv c15BauweltEnv).1 rfl rfl rfl (by decide)

/-! ## Claim C5: the zero-new branch -/

/-- Claim C5, counterexample: a run with a nonempty candidate list and zero
new identifiers returns the empty list as a normal outcome, but issues no
store call at all (`storeCalls = []`): identity.py lines 353-356 return
before the store-all step, so the claimed "persist the full
candidate-identifier set" does not happen (the same early return is at
domus.py lines 207-208). -/
theorem C5_zero_new_counterexample :
    find_new_headlines c5Env.seen c5Env.currentHeadlines = [] ∧
    c5Env.currentHeadlines ≠ [] ∧
    IdentityScraper.fetch_articles c5Env =
      .ok ⟨[], ⟨["seen-a", "seen-b"], []⟩, [], false⟩ := by
  exact ⟨by decide, by decide, by rfl⟩

/-- Claim C5 as amended: on zero new identifiers every run returns an empty
list as a normal (non-error) outcome; the bauwelt run persists the full
candidate set as the claim states, while the identity run (like the domus
one) returns without any store call — observationally harmless for the
seen-set, because zero new means every candidate identifier is already in
the tracker's seen-set. -/
theorem C5_zero_new_amended (env : IdentityScraper.Env)
    (benv : BauweltScraper.BEnv) :
    (env.connectFails = false → env.findNewFails = false →
      env.currentHeadlines ≠ [] →
      find_new_headlines env.seen env.currentHeadlines = [] →
      IdentityScraper.fetch_articles env = .ok ⟨[], ⟨env.seen, []⟩, [], false⟩ ∧
      ∀ h ∈ env.currentHeadlines, h ∈ env.seen) ∧
    (benv.connectFails = false → benv.getStoredFails = false →
      benv.storeFails = false → bauweltArticleUrls benv ≠ [] →
      bauweltNewUrls benv = [] →
      BauweltScraper.fetch_articles benv = .ok
        ⟨[], store_headlines ⟨benv.seen, []⟩ (bauweltArticleUrls benv),
          [bauweltArticleUrls benv], false⟩) := by
  constructor
  · intro hc hf hcur hzero
    refine ⟨identity_run_zero_new env hc hf hcur hzero, ?_⟩
    intro h hmem
    by_contra hnot
    have hfilter : h ∈ find_new_headlines env.seen env.currentHeadlines := by
      unfold find_new_headlines
      refine List.mem_filter.mpr ⟨hmem, ?_⟩
      simpa using fun hcontra => hnot (by simpa using hcontra)
    rw [hzero] at hfilter
    cases hfilter
  · intro hc hg hs hurls hzero
    exact bauwelt_run_zero_new benv hc hg hs hurls hzero

/-- Witness for C5: the amended theorem applied at concrete zero-new runs of
both scrapers. -/
theorem C5_zero_new_amended_witness :
    (IdentityScraper.fetch_articles c5Env =
      .ok ⟨[], ⟨c5Env.seen, []⟩, [], false⟩ ∧
      ∀ h ∈ c5Env.currentHeadlines, h ∈ c5Env.seen) ∧
    BauweltScraper.fetch_articles c5BauweltEnv = .ok
      ⟨[], store_headlines ⟨c5BauweltEnv.seen, []⟩ (bauweltArticleUrls c5BauweltEnv),
        [bauweltArticleUrls c5BauweltEnv], false⟩ :=
  ⟨(C5_zero_new_amended c5Env c5BauweltEnv).1 rfl rfl (by decide) (by decide),
   (C5_zero_new_amended c5Env c5BauweltEnv).2 rfl rfl rfl (by decide) (by decide)⟩

/-! ## Claims C6 and C7: age filtering -/

/-- Helper: the identity per-headline step on a resolved link with a date. -/
theorem identity_processHeadline_some (env : IdentityScraper.Env) (h : String)
    (m : MatchResult) (d : Int) (hres : env.resolve h = .result (some m))
    (hlink : m.link ≠ "") (hpub : env.pubDate m.link = some d) :
    IdentityScraper.processHeadline env h =
      if pyDaysBetween env.now d > IdentityScraper.MAX_ARTICLE_AGE_DAYS then none
      else if validate_article ⟨m.title, m.link, some d⟩ then
        some ⟨m.title, m.link, some d⟩
      else none := by
  unfold IdentityScraper.processHeadline
  rw [hres]
  dsimp only
  rw [if_neg hlink, hpub]

/-- Helper: the identity per-headline step on a resolved link without a
date. -/
theorem identity_processHeadline_none (env : IdentityScraper.Env) (h : String)
    (m : MatchResult) (hres : env.resolve h = .result (some m))
    (hlink : m.link ≠ "") (hpub : env.pubDate m.link = none) :
    IdentityScraper.processHeadline env h =
      if validate_article ⟨m.title, m.link, none⟩ then
        some ⟨m.title, m.link, none⟩
      else none := by
  unfold IdentityScraper.processHeadline
  rw [hres]
  dsimp only
  rw [if_neg hlink, hpub]

/-- Helper: the bauwelt per-URL step without a per-item exception. -/
theorem bauwelt_processUrl_eval (env : BauweltScraper.BEnv) (u : String)
    (hraise : env.itemRaises u = false) :
    BauweltScraper.processUrl env u =
      (if (match env.itemDate u with
          | some d => !(pyDaysBetween env.now d > BauweltScraper.MAX_ARTICLE_AGE_DAYS)
          | none => true) then
        if validate_article ⟨BauweltScraper.url_title u, u, env.itemDate u⟩ then
          some ⟨BauweltScraper.url_title u, u, env.itemDate u⟩
        else none
      else none) := by
  unfold BauweltScraper.processUrl
  rw [hraise]
  simp only [Bool.false_eq_true, if_false]

/-- Helper: days-old at exactly `n` days is `n`. -/
theorem pyDaysBetween_exact (now d n : Int) (h : now - d = n * 86400) :
    pyDaysBetween now d = n := by
  unfold pyDaysBetween
  rw [h]
  exact Int.mul_fdiv_cancel n (by norm_num)

/-- Claim C6: a candidate whose resolved date is exactly
`MAX_ARTICLE_AGE_DAYS` old at run time is retained and returned; a candidate
one day older is dropped from the processed set, yet its identifier still
ends the run in the tracker's seen-set. Stated for the identity run (cap
member `h` resolving to match `m` with date `d`) and the bauwelt run (cap
member URL `u` with date `d`). -/
theorem C6_age_boundary :
    (∀ (env : IdentityScraper.Env) (h : String) (m : MatchResult) (d : Int),
      env.connectFails = false → env.findNewFails = false →
      env.storeFails = false →
      h ∈ (find_new_headlines env.seen env.currentHeadlines).take
        IdentityScraper.max_new →
      env.resolve h = .result (some m) → m.link ≠ "" → m.title ≠ "" →
      env.pubDate m.link = some d →
      ((env.now - d = IdentityScraper.MAX_ARTICLE_AGE_DAYS * 86400 →
        IdentityScraper.processHeadline env h = some ⟨m.title, m.link, some d⟩ ∧
        ∃ r, IdentityScraper.fetch_articles env = .ok r ∧
          (⟨m.title, m.link, some d⟩ : Article) ∈ r.articles) ∧
       (env.now - d = (IdentityScraper.MAX_ARTICLE_AGE_DAYS + 1) * 86400 →
        IdentityScraper.processHeadline env h = none ∧
        ∃ r, IdentityScraper.fetch_articles env = .ok r ∧
          h ∈ r.tracker.seen))) ∧
    (∀ (benv : BauweltScraper.BEnv) (u : String) (d : Int),
      benv.connectFails = false → benv.getStoredFails = false →
      benv.storeFails = false →
      u ∈ (bauweltNewUrls benv).take BauweltScraper.MAX_NEW_ARTICLES →
      benv.itemRaises u = false → u ≠ "" → BauweltScraper.url_title u ≠ "" →
      benv.itemDate u = some d →
      ((benv.now - d = BauweltScraper.MAX_ARTICLE_AGE_DAYS * 86400 →
        BauweltScraper.processUrl benv u =
          some ⟨BauweltScraper.url_title u, u, some d⟩ ∧
        ∃ r, BauweltScraper.fetch_articles benv = .ok r ∧
          (⟨BauweltScraper.url_title u, u, some d⟩ : Article) ∈ r.articles) ∧
       (benv.now - d = (BauweltScraper.MAX_ARTICLE_AGE_DAYS + 1) * 86400 →
        BauweltScraper.processUrl benv u = none ∧
        ∃ r, BauweltScraper.fetch_articles benv = .ok r ∧
          u ∈ r.tracker.seen))) := by
  constructor
  · intro env h m d hc hf hs hmem hres hlink hti hpub
    have hnew : find_new_headlines env.seen env.currentHeadlines ≠ [] :=
      List.ne_nil_of_mem (List.mem_of_mem_take hmem)
    have hcur : env.currentHeadlines ≠ [] :=
      List.ne_nil_of_mem (List.mem_of_mem_filter (List.mem_of_mem_take hmem))
    have hrun := identity_run_ok env hc hf hs hcur hnew
    have hv : validate_article ⟨m.title, m.link, some d⟩ = true := by
      simp [validate_article, hti, hlink]
    constructor
    · intro hage
      have hdays : pyDaysBetween env.now d = IdentityScraper.MAX_ARTICLE_AGE_DAYS :=
        pyDaysBetween_exact env.now d _ hage
      have heval : IdentityScraper.processHeadline env h =
          some ⟨m.title, m.link, some d⟩ := by
        rw [identity_processHeadline_some env h m d hres hlink hpub, hdays]
        simp [hv]
      refine ⟨heval, _, hrun, ?_⟩
      exact List.mem_filterMap.mpr ⟨h, hmem, heval⟩
    · intro hage
      have hdays : pyDaysBetween env.now d =
          IdentityScraper.MAX_ARTICLE_AGE_DAYS + 1 :=
        pyDaysBetween_exact env.now d _ hage
      have heval : IdentityScraper.processHeadline env h = none := by
        rw [identity_processHeadline_some env h m d hres hlink hpub, hdays]
        norm_num [IdentityScraper.MAX_ARTICLE_AGE_DAYS]
      refine ⟨heval, _, hrun, ?_⟩
      simp only [store_headlines, List.mem_append]
      exact Or.inr (List.mem_of_mem_filter (List.mem_of_mem_take hmem))
  · intro benv u d hc hg hs hmem hraise hu hti hdate
    have hnew : bauweltNewUrls benv ≠ [] :=
      List.ne_nil_of_mem (List.mem_of_mem_take hmem)
    have hurls : bauweltArticleUrls benv ≠ [] := by
      intro h0
      apply hnew
      unfold bauweltNewUrls
      rw [h0]
      rfl
    have hrun := bauwelt_run_ok benv hc hg hs hurls hnew
    have hv : validate_article ⟨BauweltScraper.url_title u, u, some d⟩ = true := by
      simp [validate_article, hti, hu]
    constructor
    · intro hage
      have hdays : pyDaysBetween benv.now d = BauweltScraper.MAX_ARTICLE_AGE_DAYS :=
        pyDaysBetween_exact benv.now d _ hage
      have heval : BauweltScraper.processUrl benv u =
          some ⟨BauweltScraper.url_title u, u, some d⟩ := by
        rw [bauwelt_processUrl_eval benv u hraise, hdate]
        simp only [hdays]
        simp [hv, hdate]
      refine ⟨heval, _, hrun, ?_⟩
      exact List.mem_filterMap.mpr ⟨u, hmem, heval⟩
    · intro hage
      have hdays : pyDaysBetween benv.now d =
          BauweltScraper.MAX_ARTICLE_AGE_DAYS + 1 :=
        pyDaysBetween_exact benv.now d _ hage
      have heval : BauweltScraper.processUrl benv u = none := by
        rw [bauwelt_processUrl_eval benv u hraise, hdate]
        simp only [hdays]
        norm_num [BauweltScraper.MAX_ARTICLE_AGE_DAYS]
      refine ⟨heval, _, hrun, ?_⟩
      simp only [store_headlines, List.mem_append]
      exact Or.inr (List.mem_of_mem_filter (List.mem_of_mem_take hmem))

/-- Witness for C6: both boundary cases of the identity half at the concrete
two-headline run. -/
theorem C6_age_boundary_witness :
    (IdentityScraper.processHeadline c6IdentityEnv "hb" =
      some ⟨"Boundary fresh title", "https://identity.ae/b", some 86400⟩ ∧
      ∃ r, IdentityScraper.fetch_articles c6IdentityEnv = .ok r ∧
        (⟨"Boundary fresh title", "https://identity.ae/b", some 86400⟩ : Article)
          ∈ r.articles) ∧
    (IdentityScraper.processHeadline c6IdentityEnv "ho" = none ∧
      ∃ r, IdentityScraper.fetch_articles c6IdentityEnv = .ok r ∧
        "ho" ∈ r.tracker.seen) :=
  ⟨(C6_age_boundary.1 c6IdentityEnv "hb"
      ⟨"Boundary fresh title", "https://identity.ae/b", "", none⟩ 86400
      rfl rfl rfl (by decide) rfl (by decide) (by decide) rfl).1 (by decide),
   (C6_age_boundary.1 c6IdentityEnv "ho"
      ⟨"Old article title", "https://identity.ae/o", "", none⟩ 0
      rfl rfl rfl (by decide) rfl (by decide) (by decide) rfl).2 (by decide)⟩

/-- Claim C7: a candidate with no resolvable publication date is always
retained for processing — never dropped by age filtering. Stated for both
runs: when the AI date extraction yields nothing, the per-candidate step
keeps the article and the run returns it. -/
theorem C7_missing_date_retained :
    (∀ (env : IdentityScraper.Env) (h : String) (m : MatchResult),
      env.connectFails = false → env.findNewFails = false →
      env.storeFails = false →
      h ∈ (find_new_headlines env.seen env.currentHeadlines).take
        IdentityScraper.max_new →
      env.resolve h = .result (some m) → m.link ≠ "" → m.title ≠ "" →
      env.pubDate m.link = none →
      IdentityScraper.processHeadline env h = some ⟨m.title, m.link, none⟩ ∧
      ∃ r, IdentityScraper.fetch_articles env = .ok r ∧
        (⟨m.title, m.link, none⟩ : Article) ∈ r.articles) ∧
    (∀ (benv : BauweltScraper.BEnv) (u : String),
      benv.connectFails = false → benv.getStoredFails = false →
      benv.storeFails = false →
      u ∈ (bauweltNewUrls benv).take BauweltScraper.MAX_NEW_ARTICLES →
      benv.itemRaises u = false → u ≠ "" → BauweltScraper.url_title u ≠ "" →
      benv.itemDate u = none →
      BauweltScraper.processUrl benv u =
        some ⟨BauweltScraper.url_title u, u, none⟩ ∧
      ∃ r, BauweltScraper.fetch_articles benv = .ok r ∧
        (⟨BauweltScraper.url_title u, u, none⟩ : Article) ∈ r.articles) := by
  constructor
  · intro env h m hc hf hs hmem hres hlink hti hpub
    have hnew : find_new_headlines env.seen env.currentHeadlines ≠ [] :=
      List.ne_nil_of_mem (List.mem_of_mem_take hmem)
    have hcur : env.currentHeadlines ≠ [] :=
      List.ne_nil_of_mem (List.mem_of_mem_filter (List.mem_of_mem_take hmem))
    have hrun := identity_run_ok env hc hf hs hcur hnew
    have hv : validate_article ⟨m.title, m.link, none⟩ = true := by
      simp [validate_article, hti, hlink]
    have heval : IdentityScraper.processHeadline env h =
        some ⟨m.title, m.link, none⟩ := by
      rw [identity_processHeadline_none env h m hres hlink hpub]
      simp [hv]
    refine ⟨heval, _, hrun, ?_⟩
    exact List.mem_filterMap.mpr ⟨h, hmem, heval⟩
  · intro benv u hc hg hs hmem hraise hu hti hdate
    have hnew : bauweltNewUrls benv ≠ [] :=
      List.ne_nil_of_mem (List.mem_of_mem_take hmem)
    have hurls : bauweltArticleUrls benv ≠ [] := by
      intro h0
      apply hnew
      unfold bauweltNewUrls
      rw [h0]
      rfl
    have hrun := bauwelt_run_ok benv hc hg hs hurls hnew
    have hv : validate_article ⟨BauweltScraper.url_title u, u, none⟩ = true := by
      simp [validate_article, hti, hu]
    have heval : BauweltScraper.processUrl benv u =
        some ⟨BauweltScraper.url_title u, u, none⟩ := by
      rw [bauwelt_processUrl_eval benv u hraise, hdate]
      simp [hv, hdate]
    refine ⟨heval, _, hrun, ?_⟩
    exact List.mem_filterMap.mpr ⟨u, hmem, heval⟩

/-- Witness for C7: both halves applied at the concrete no-date runs. -/
theorem C7_missing_date_retained_witness :
    (IdentityScraper.processHeadline c7IdentityEnv "hn" =
      some ⟨"No date article title", "https://identity.ae/n", none⟩ ∧
      ∃ r, IdentityScraper.fetch_articles c7IdentityEnv = .ok r ∧
        (⟨"No date article title", "https://identity.ae/n", none⟩ : Article)
          ∈ r.articles) ∧
    (BauweltScraper.processUrl c7BauweltEnv
        "https://www.bauwelt.de/rubriken/bauten/n-article.html" =
      some ⟨"n article", "https://www.bauwelt.de/rubriken/bauten/n-article.html",
        none⟩ ∧
      ∃ r, BauweltScraper.fetch_articles c7BauweltEnv = .ok r ∧
        (⟨"n article", "https://www.bauwelt.de/rubriken/bauten/n-article.html",
          none⟩ : Article) ∈ r.articles) :=
  ⟨C7_missing_date_retained.1 c7IdentityEnv "hn"
      ⟨"No date article title", "https://identity.ae/n", "", none⟩
      rfl rfl rfl (by decide) rfl (by decide) (by decide) rfl,
   by
    have hteq : BauweltScraper.url_title
        "https://www.bauwelt.de/rubriken/bauten/n-article.html" = "n article" := by
      decide
    have := C7_missing_date_retained.2 c7BauweltEnv
      "https://www.bauwelt.de/rubriken/bauten/n-article.html"
      rfl rfl rfl (by decide) rfl (by decide) (by rw [hteq]; decide) rfl
    rwa [hteq] at this⟩

/-! ## Claim C4: per-page dedup and ordering of the pattern extractors -/

/-- Membership in an ordered insertion. -/
theorem mem_insertSorted {y x : String} :
    ∀ {l : List String}, y ∈ insertSorted x l ↔ y = x ∨ y ∈ l := by
  intro l
  induction l with
  | nil => simp [insertSorted]
  | cons a rest ih =>
    cases hle : charListLe x.toList a.toList with
    | true =>
      have hle2 : charListLe x.data a.data = true := hle
      rw [show insertSorted x (a :: rest) = x :: a :: rest by
        simp [insertSorted, hle, hle2]]
      simp [List.mem_cons]
    | false =>
      have hle2 : charListLe x.data a.data = false := hle
      rw [show insertSorted x (a :: rest) = a :: insertSorted x rest by
        simp [insertSorted, hle, hle2]]
      simp only [List.mem_cons, ih]
      tauto

/-- Ordered insertion of a fresh element preserves distinctness. -/
theorem nodup_insertSorted {x : String} :
    ∀ {l : List String}, x ∉ l → l.Nodup → (insertSorted x l).Nodup := by
  intro l
  induction l with
  | nil => intro _ _; simp [insertSorted]
  | cons a rest ih =>
    intro hx hnd
    have hxa : x ≠ a := fun he => hx (he ▸ List.mem_cons_self a rest)
    have hxrest : x ∉ rest := fun hm => hx (List.mem_cons_of_mem a hm)
    have hnd2 := List.nodup_cons.mp hnd
    cases hle : charListLe x.toList a.toList with
    | true =>
      have hle2 : charListLe x.data a.data = true := hle
      rw [show insertSorted x (a :: rest) = x :: a :: rest by
        simp [insertSorted, hle, hle2]]
      exact List.nodup_cons.mpr ⟨by simp [hxa, hxrest], hnd⟩
    | false =>
      have hle2 : charListLe x.data a.data = false := hle
      rw [show insertSorted x (a :: rest) = a :: insertSorted x rest by
        simp [insertSorted, hle, hle2]]
      refine List.nodup_cons.mpr ⟨?_, ih hxrest hnd2.2⟩
      intro hmem
      rcases mem_insertSorted.mp hmem with he | hm
      · exact hxa he.symm
      · exact hnd2.1 hm

/-- Sorting preserves membership. -/
theorem mem_sortStr {y : String} :
    ∀ {l : List String}, y ∈ sortStr l ↔ y ∈ l := by
  intro l
  induction l with
  | nil => simp [sortStr]
  | cons a rest ih =>
    have hstep : sortStr (a :: rest) = insertSorted a (sortStr rest) := rfl
    rw [hstep, mem_insertSorted]
    simp [ih]

/-- Sorting preserves distinctness. -/
theorem nodup_sortStr : ∀ {l : List String}, l.Nodup → (sortStr l).Nodup := by
  intro l
  induction l with
  | nil => intro _; simp [sortStr]
  | cons a rest ih =>
    intro hnd
    have hnd2 := List.nodup_cons.mp hnd
    have hstep : sortStr (a :: rest) = insertSorted a (sortStr rest) := rfl
    rw [hstep]
    exact nodup_insertSorted (fun hm => hnd2.1 (mem_sortStr.mp hm)) (ih hnd2.2)

/-- Membership in the first-occurrence dedup of a string list. -/
theorem mem_dedupFirstStr {y : String} :
    ∀ (l seen : List String), y ∈ dedupFirstStr seen l ↔ y ∈ l ∧ y ∉ seen := by
  intro l
  induction l with
  | nil => intro seen; simp [dedupFirstStr]
  | cons u rest ih =>
    intro seen
    cases hc : seen.contains u with
    | true =>
      have hu : u ∈ seen := by simpa using hc
      rw [show dedupFirstStr seen (u :: rest) = dedupFirstStr seen rest by
        rw [dedupFirstStr, hc]; simp]
      rw [ih]
      constructor
      · exact fun hx => ⟨List.mem_cons_of_mem u hx.1, hx.2⟩
      · rintro ⟨hm, hs⟩
        rcases List.mem_cons.mp hm with he | hm2
        · exact absurd (he ▸ hu) hs
        · exact ⟨hm2, hs⟩
    | false =>
      have hu : u ∉ seen := by simpa using hc
      rw [show dedupFirstStr seen (u :: rest) =
        u :: dedupFirstStr (u :: seen) rest by rw [dedupFirstStr, hc]; simp]
      constructor
      · intro hmem
        rcases List.mem_cons.mp hmem with he | hm
        · exact ⟨he ▸ List.mem_cons_self u rest, he ▸ hu⟩
        · obtain ⟨hm2, hs⟩ := (ih (u :: seen)).mp hm
          exact ⟨List.mem_cons_of_mem u hm2,
            fun hmem2 => hs (List.mem_cons_of_mem u hmem2)⟩
      · rintro ⟨hm, hs⟩
        by_cases hyu : y = u
        · exact hyu ▸ List.mem_cons_self u _
        · rcases List.mem_cons.mp hm with he | hm2
          · exact absurd he hyu
          · refine List.mem_cons_of_mem u ((ih (u :: seen)).mpr ⟨hm2, ?_⟩)
            intro hmem2
            exact (List.mem_cons.mp hmem2).elim hyu hs

/-- The first-occurrence dedup of a string list is duplicate-free. -/
theorem nodup_dedupFirstStr :
    ∀ (l seen : List String), (dedupFirstStr seen l).Nodup := by
  intro l
  induction l with
  | nil => intro seen; simp [dedupFirstStr]
  | cons u rest ih =>
    intro seen
    cases hc : seen.contains u with
    | true => simpa only [dedupFirstStr, hc, if_true] using ih seen
    | false =>
      simp only [dedupFirstStr, hc, Bool.false_eq_true, if_false]
      refine List.nodup_cons.mpr ⟨?_, ih (u :: seen)⟩
      intro hmem
      exact (mem_dedupFirstStr rest (u :: seen)).mp hmem |>.2
        (List.mem_cons_self u seen)

/-- A key of a first-occurrence-dedupped pair list avoids the accumulator. -/
theorem keys_dedupFirstByKey_not_seen {k : String} :
    ∀ (l : List (String × String)) (seen : List String),
      k ∈ (dedupFirstByKey seen l).map Prod.fst → k ∉ seen := by
  intro l
  induction l with
  | nil => intro seen h; simp [dedupFirstByKey] at h
  | cons p rest ih =>
    intro seen h
    obtain ⟨k0, v⟩ := p
    cases hc : seen.contains k0 with
    | true =>
      exact ih seen (by simpa only [dedupFirstByKey, hc, if_true] using h)
    | false =>
      have hk0 : k0 ∉ seen := by simpa using hc
      simp only [dedupFirstByKey, hc, Bool.false_eq_true, if_false,
        List.map_cons, List.mem_cons] at h
      rcases h with he | hm
      · exact he ▸ hk0
      · exact fun hs => ih (k0 :: seen) hm (List.mem_cons_of_mem k0 hs)

/-- The keys of a first-occurrence-dedupped pair list are distinct. -/
theorem nodup_keys_dedupFirstByKey :
    ∀ (l : List (String × String)) (seen : List String),
      ((dedupFirstByKey seen l).map Prod.fst).Nodup := by
  intro l
  induction l with
  | nil => intro seen; simp [dedupFirstByKey]
  | cons p rest ih =>
    intro seen
    obtain ⟨k0, v⟩ := p
    cases hc : seen.contains k0 with
    | true => simpa only [dedupFirstByKey, hc, if_true] using ih seen
    | false =>
      simp only [dedupFirstByKey, hc, Bool.false_eq_true, if_false, List.map_cons]
      refine List.nodup_cons.mpr ⟨?_, ih (k0 :: seen)⟩
      intro hmem
      exact keys_dedupFirstByKey_not_seen rest (k0 :: seen) hmem
        (List.mem_cons_self k0 seen)

/-- The shared anchor loop, on success, returns exactly the first-occurrence
dedup (relative to the running seen accumulator) of the per-anchor candidate
stream. -/
theorem extractLoop_ok_eq
    (process : Anchor → Except Unit (Option (String × String))) :
    ∀ (anchors : List Anchor) (seen : List String)
      (l : List (String × String)),
      extractLoopAux process seen anchors = .ok l →
      l = dedupFirstByKey seen (producedPairs process anchors) := by
  intro anchors
  induction anchors with
  | nil =>
    intro seen l h
    simp only [extractLoopAux] at h
    cases h
    rfl
  | cons a rest ih =>
    intro seen l h
    cases hp : process a with
    | error e =>
      rw [extractLoopAux, hp] at h
      cases h
    | ok o =>
      cases o with
      | none =>
        rw [extractLoopAux, hp] at h
        have hstream : producedPairs process (a :: rest) =
            producedPairs process rest := by
          simp [producedPairs, hp]
        rw [hstream]
        exact ih seen l h
      | some p =>
        obtain ⟨url, title⟩ := p
        have hstream : producedPairs process (a :: rest) =
            (url, title) :: producedPairs process rest := by
          simp [producedPairs, hp]
        rw [extractLoopAux, hp] at h
        dsimp only at h
        rw [hstream]
        cases hc : seen.contains url with
        | true =>
          rw [hc] at h
          simp only [if_true] at h
          simp only [dedupFirstByKey, hc, if_true]
          exact ih seen l h
        | false =>
          rw [hc] at h
          simp only [Bool.false_eq_true, if_false] at h
          simp only [dedupFirstByKey, hc, Bool.false_eq_true, if_false]
          cases hrec : extractLoopAux process (url :: seen) rest with
          | error e => rw [hrec] at h; cases h
          | ok l2 =>
            rw [hrec] at h
            cases h
            exact congrArg _ (ih (url :: seen) l2 hrec)

/-- Claim C4, counterexample: on a page where `b.html` occurs before
`a.html`, the bauwelt extractor — which dedups through a Python `set`,
modelled as a contents-determined canonical enumeration — returns the URLs in
an order different from first-occurrence order, refuting the claimed
ordering for the pattern strategy. -/
theorem C4_first_occurrence_counterexample :
    BauweltScraper.extract_article_links c4Html =
      ["https://www.bauwelt.de/rubriken/bauten/a.html",
       "https://www.bauwelt.de/rubriken/bauten/b.html"] ∧
    firstOccurrenceList ((BauweltScraper.ARTICLE_PATTERN_findall c4Html).map
      BauweltScraper.bauweltUrljoin) =
      ["https://www.bauwelt.de/rubriken/bauten/b.html",
       "https://www.bauwelt.de/rubriken/bauten/a.html"] ∧
    BauweltScraper.extract_article_links c4Html ≠
      firstOccurrenceList ((BauweltScraper.ARTICLE_PATTERN_findall c4Html).map
        BauweltScraper.bauweltUrljoin) := by
  refine ⟨by decide, by decide, by decide⟩

/-- Claim C4 as amended: the LAM and WLA extractors return each matching URL
exactly once, in the order of its first occurrence on the page (first
occurrence wins, and the first occurrence also supplies the title); the
bauwelt extractor returns each matching URL exactly once, but in a Python
`set` enumeration order unrelated to occurrence order. -/
theorem C4_extractor_dedup_amended :
    (∀ (anchors : List Anchor) (l : List (String × String)),
      LamScraper.extract_article_links anchors = .ok l →
      l = firstOccurrenceDedup (producedPairs LamScraper.processAnchor anchors) ∧
      (l.map Prod.fst).Nodup) ∧
    (∀ (anchors : List Anchor) (l : List (String × String)),
      WlaScraper.extract_article_links anchors = .ok l →
      l = firstOccurrenceDedup (producedPairs WlaScraper.processAnchor anchors) ∧
      (l.map Prod.fst).Nodup) ∧
    (∀ html : String,
      (BauweltScraper.extract_article_links html).Nodup ∧
      ∀ u, u ∈ BauweltScraper.extract_article_links html ↔
        u ∈ (BauweltScraper.ARTICLE_PATTERN_findall html).map
          BauweltScraper.bauweltUrljoin) := by
  refine ⟨?_, ?_, ?_⟩
  · intro anchors l h
    have he := extractLoop_ok_eq LamScraper.processAnchor anchors [] l h
    exact ⟨he, he ▸ nodup_keys_dedupFirstByKey _ []⟩
  · intro anchors l h
    have he := extractLoop_ok_eq WlaScraper.processAnchor anchors [] l h
    exact ⟨he, he ▸ nodup_keys_dedupFirstByKey _ []⟩
  · intro html
    constructor
    · exact nodup_sortStr (nodup_dedupFirstStr _ [])
    · intro u
      rw [show BauweltScraper.extract_article_links html =
        sortStr (dedupFirstStr []
          ((BauweltScraper.ARTICLE_PATTERN_findall html).map
            BauweltScraper.bauweltUrljoin)) from rfl]
      rw [mem_sortStr, mem_dedupFirstStr]
      simp

/-- Witness for C4: the amended theorem applied at concrete anchor lists for
both ordered extractors (the WLA page-filter rejects every candidate on this
page, so its stream and output are both empty). -/
theorem C4_extractor_dedup_witness :
    ([("https://landscapearchitecturemagazine.org/2025/a-park-mostly-for-people",
       "A park mostly for people")] =
      firstOccurrenceDedup (producedPairs LamScraper.processAnchor c4LamAnchors) ∧
      ([("https://landscapearchitecturemagazine.org/2025/a-park-mostly-for-people",
        "A park mostly for people")].map
        (Prod.fst (α := String) (β := String))).Nodup) ∧
    (([] : List (String × String)) =
      firstOccurrenceDedup (producedPairs WlaScraper.processAnchor c4WlaAnchors) ∧
      (([] : List (String × String)).map Prod.fst).Nodup) :=
  ⟨C4_extractor_dedup_amended.1 c4LamAnchors _ (by decide),
   C4_extractor_dedup_amended.2.1 c4WlaAnchors _ (by decide)⟩

end Adu
